import Mathlib

/-!
# OpenTelekomCloud provider: resource adapters and their waits

A shallow embedding of the resource adapters of the provider (networking port,
router interface, image, load balancer monitor, file share access rules, identity
credential data source, and the destroy check of the floating IP association) and
of the state-convergence polling they rely on.

* Go `error` values are the inductive `GoError`; the constructors are the dynamic
  types the source distinguishes with type assertions.
* A service client is the record of the answers the cloud gives to each request.
  A polling loop sees one such record per poll (`Nat → NetworkingClient`).
* `*schema.ResourceData` is one record per resource, holding the resource ID and
  the attributes of the schema the functions read and write.
-/

namespace Opentelekomcloud

/-! ## Errors -/

/-- Go `error` values by dynamic type: `golangsdk.ErrDefault404`,
`golangsdk.ErrUnexpectedResponseCode` (with its `Actual` status code), any other
error type of the SDK, the plain errors `fmt.Errorf` builds, and the
`resource.TimeoutError` of the polling helper. -/
inductive GoError where
  | ErrDefault404 (msg : String)
  | ErrUnexpectedResponseCode (Actual : Nat) (msg : String)
  | ErrOther (msg : String)
  | errorString (msg : String)
  | TimeoutError
  deriving DecidableEq, Repr

namespace GoError

/-- The `Error()` text of an error, as `%s` prints it. -/
def Error : GoError → String
  | ErrDefault404 msg => msg
  | ErrUnexpectedResponseCode _ msg => msg
  | ErrOther msg => msg
  | errorString msg => msg
  | TimeoutError => "timeout while waiting for state to become target"

/-- The type assertion `_, ok := err.(golangsdk.ErrDefault404)`. -/
def isErrDefault404 : GoError → Bool
  | ErrDefault404 _ => true
  | _ => false

/-- The type assertion `errCode, ok := err.(golangsdk.ErrUnexpectedResponseCode)`,
giving `errCode.Actual` when it succeeds. -/
def asErrUnexpectedResponseCode : GoError → Option Nat
  | ErrUnexpectedResponseCode Actual _ => some Actual
  | _ => none

end GoError

/-- The error `fmt.Errorf(format, ...)` returns, with the formatted text. -/
def fmtErrorf (text : String) : GoError := GoError.errorString text

/-! ## SDK data: ports and router interfaces -/

namespace ports

/-- One fixed IP of a port (`ports.IP`). -/
structure IP where
  SubnetID : String
  IPAddress : String
  deriving DecidableEq, Repr

/-- One allowed address pair of a port (`ports.AddressPair`). -/
structure AddressPair where
  IPAddress : String
  MACAddress : String
  deriving DecidableEq, Repr

/-- A port as the networking API returns it (`ports.Port`). -/
structure Port where
  ID : String
  NetworkID : String
  Name : String
  AdminStateUp : Bool
  Status : String
  MACAddress : String
  FixedIPs : List IP
  TenantID : String
  DeviceOwner : String
  SecurityGroups : List String
  DeviceID : String
  AllowedAddressPairs : List AddressPair
  deriving DecidableEq, Repr

/-- The options of a port creation (`ports.CreateOpts`). A pointer field is an
`Option`: `none` is the nil pointer. -/
structure CreateOpts where
  NetworkID : String
  Name : String
  AdminStateUp : Option Bool
  MACAddress : String
  FixedIPs : Option (List IP)
  DeviceID : String
  DeviceOwner : String
  TenantID : String
  SecurityGroups : Option (List String)
  AllowedAddressPairs : List AddressPair
  deriving DecidableEq, Repr

/-- The options of a port update (`ports.UpdateOpts`); the declared variable
`var updateOpts ports.UpdateOpts` is `UpdateOpts.zero`. -/
structure UpdateOpts where
  Name : String
  AdminStateUp : Option Bool
  FixedIPs : Option (List IP)
  DeviceID : String
  DeviceOwner : String
  SecurityGroups : Option (List String)
  AllowedAddressPairs : Option (List AddressPair)
  deriving DecidableEq, Repr

/-- The zero value of `ports.UpdateOpts`. -/
def UpdateOpts.zero : UpdateOpts :=
  { Name := "", AdminStateUp := none, FixedIPs := none, DeviceID := "", DeviceOwner := "",
    SecurityGroups := none, AllowedAddressPairs := none }

end ports

/-- The create options of the provider: `ports.CreateOpts` with the value specs
(`PortCreateOpts`). -/
structure PortCreateOpts where
  CreateOpts : ports.CreateOpts
  ValueSpecs : List (String × String)
  deriving DecidableEq, Repr

namespace routers

/-- The options of `routers.AddInterface`. -/
structure AddInterfaceOpts where
  SubnetID : String
  PortID : String
  deriving DecidableEq, Repr

/-- The options of `routers.RemoveInterface`. -/
structure RemoveInterfaceOpts where
  SubnetID : String
  PortID : String
  deriving DecidableEq, Repr

/-- The answer of `AddInterface` and `RemoveInterface` (`routers.InterfaceInfo`). -/
structure InterfaceInfo where
  SubnetID : String
  PortID : String
  ID : String
  TenantID : String
  deriving DecidableEq, Repr

end routers

/-- The networking service as one call sees it: the answer to each request the
resources of this file send. -/
structure NetworkingClient where
  portsGet : String → Except GoError ports.Port
  portsDelete : String → Except GoError Unit
  portsCreate : PortCreateOpts → Except GoError ports.Port
  portsUpdate : String → ports.UpdateOpts → Except GoError ports.Port
  routersAddInterface : String → routers.AddInterfaceOpts → Except GoError routers.InterfaceInfo
  routersRemoveInterface : String → routers.RemoveInterfaceOpts → Except GoError routers.InterfaceInfo

/-! ## The polling function of a wait -/

/-- What a `resource.StateRefreshFunc` returns: `(interface{}, string, error)`.
The resource is `none` for a nil value, the error is `none` for a nil error. -/
structure RefreshResult (ρ : Type) where
  result : Option ρ
  state : String
  err : Option GoError
  deriving DecidableEq, Repr

/-- The timeouts of a resource, in seconds (`d.Timeout(schema.TimeoutCreate)`,
`d.Timeout(schema.TimeoutDelete)`). -/
structure ResourceTimeout where
  Create : Nat
  Delete : Nat
  deriving DecidableEq, Repr

/-- The resource data of `opentelekomcloud_networking_router_interface_v2`. -/
structure RouterInterfaceData where
  Id : String
  region : String
  router_id : String
  subnet_id : String
  port_id : String
  Timeout : ResourceTimeout
  deriving DecidableEq, Repr

/-- `waitForNetworkPortActive`: the port is fetched; `DOWN` and `ACTIVE` are both
reported as `ACTIVE`. -/
def waitForNetworkPortActive (networkingClient : NetworkingClient) (portId : String) :
    RefreshResult ports.Port :=
  match networkingClient.portsGet portId with
  | .error err => { result := none, state := "", err := some err }
  | .ok p =>
    if p.Status = "DOWN" ∨ p.Status = "ACTIVE" then
      { result := some p, state := "ACTIVE", err := none }
    else
      { result := some p, state := p.Status, err := none }

/-- `waitForNetworkPortDelete`: the port is fetched, then deleted; a 404 from
either request reports `DELETED`. -/
def waitForNetworkPortDelete (networkingClient : NetworkingClient) (portId : String) :
    RefreshResult ports.Port :=
  match networkingClient.portsGet portId with
  | .error err =>
    if err.isErrDefault404 then
      { result := none, state := "DELETED", err := none }
    else
      { result := none, state := "ACTIVE", err := some err }
  | .ok p =>
    match networkingClient.portsDelete portId with
    | .error err =>
      if err.isErrDefault404 then
        { result := some p, state := "DELETED", err := none }
      else
        { result := some p, state := "ACTIVE", err := some err }
    | .ok _ => { result := some p, state := "ACTIVE", err := none }

/-- `waitForRouterInterfaceActive`: the status of the interface's port. -/
def waitForRouterInterfaceActive (networkingClient : NetworkingClient) (rId : String) :
    RefreshResult ports.Port :=
  match networkingClient.portsGet rId with
  | .error err => { result := none, state := "", err := some err }
  | .ok r => { result := some r, state := r.Status, err := none }

/-- `waitForRouterInterfaceDelete`: the interface's port is fetched, then the
interface is removed from the router; a 404 reports `DELETED`, a 409 from the
removal reports `ACTIVE` without error. -/
def waitForRouterInterfaceDelete (networkingClient : NetworkingClient) (d : RouterInterfaceData) :
    RefreshResult ports.Port :=
  let routerId := d.router_id
  let routerInterfaceId := d.Id
  let removeOpts : routers.RemoveInterfaceOpts := { SubnetID := d.subnet_id, PortID := d.port_id }
  match networkingClient.portsGet routerInterfaceId with
  | .error err =>
    if err.isErrDefault404 then
      { result := none, state := "DELETED", err := none }
    else
      { result := none, state := "ACTIVE", err := some err }
  | .ok r =>
    match networkingClient.routersRemoveInterface routerId removeOpts with
    | .error err =>
      if err.isErrDefault404 then
        { result := some r, state := "DELETED", err := none }
      else
        match err.asErrUnexpectedResponseCode with
        | some 409 => { result := some r, state := "ACTIVE", err := none }
        | _ => { result := some r, state := "ACTIVE", err := some err }
    | .ok _ => { result := some r, state := "ACTIVE", err := none }

/-! ## The poll-until-ready wait -/

/-- The configuration of a wait (`resource.StateChangeConf`) with the fields the
callers of this file set. `Refresh k` is what the polling function returns at its
`k`-th call; the durations are in seconds. -/
structure StateChangeConf (ρ : Type) where
  Pending : List String
  Target : List String
  Refresh : Nat → RefreshResult ρ
  Timeout : Nat
  Delay : Nat
  MinTimeout : Nat

/-- Modelled from the spec: the loop of the poll-until-ready wait
(`StateChangeConf.WaitForState` of the plugin SDK, whose code is not among the
sources). Given a polling function returning (resource, status, error), the
target statuses, a timeout and a poll interval, it returns the resource once
status ∈ target, fails with a `TimeoutError` if the deadline elapses first, and
fails with the polling function's own error. `elapsed` is the time since the wait
began; between two polls the poll interval passes, which is `MinTimeout`, the only
interval the callers set. `fuel` bounds the number of polls: `none` means the
wait was still polling when the fuel ran out. The spec names no outcome for a
status that is in neither list, so such a poll is followed by the next one. -/
def waitLoop {ρ : Type} (conf : StateChangeConf ρ) : Nat → Nat → Nat → Option (Except GoError (Option ρ))
  | 0, _, _ => none
  | fuel + 1, elapsed, poll =>
    if conf.Timeout ≤ elapsed then
      some (.error GoError.TimeoutError)
    else
      match (conf.Refresh poll).err with
      | some err => some (.error err)
      | none =>
        if (conf.Refresh poll).state ∈ conf.Target then
          some (.ok (conf.Refresh poll).result)
        else
          waitLoop conf fuel (elapsed + conf.MinTimeout) (poll + 1)

/-- Modelled from the spec: the poll-until-ready wait `WaitForState`, which is
`waitLoop` started with no time elapsed at the first call of the polling function. -/
def StateChangeConf.WaitForState {ρ : Type} (conf : StateChangeConf ρ) (fuel : Nat) :
    Option (Except GoError (Option ρ)) :=
  waitLoop conf fuel 0 0

/-! ## Configuration and resource data -/

/-- The networking service over one operation of a resource: the answers to the
request the operation sends itself, to the `k`-th poll of its wait, and to the
final read. -/
structure Cloud where
  atRequest : NetworkingClient
  atPoll : Nat → NetworkingClient
  atRead : NetworkingClient

/-- The provider configuration (`cfg.Config`): the region chosen for a resource
from its `region` attribute, and the networking client for a region, which may
fail to be built. -/
structure Config where
  GetRegion : String → String
  NetworkingV2Client : String → Except GoError Cloud

/-- The requests that create or change a resource. -/
inductive NetworkingRequest where
  | portsCreate (opts : PortCreateOpts)
  | portsUpdate (id : String) (opts : ports.UpdateOpts)
  | routersAddInterface (id : String) (opts : routers.AddInterfaceOpts)
  deriving DecidableEq, Repr

/-- The outcome of a create, read, update or delete function: the returned error
(`none` is nil), the resource data it leaves, and the creating and changing
requests it sent, in order (reads and the requests of polling functions are not
recorded). -/
structure OpResult (δ : Type) where
  err : Option GoError
  d : δ
  sent : List NetworkingRequest
  deriving DecidableEq, Repr

/-- The resource data of `opentelekomcloud_networking_port_v2`. A set attribute
is held as the list `Set.List()` gives; `changed` lists the attributes for which
`d.HasChange` is true. -/
structure PortData where
  Id : String
  region : String
  name : String
  network_id : String
  admin_state_up : Bool
  mac_address : String
  tenant_id : String
  device_owner : String
  security_group_ids : List String
  no_security_groups : Bool
  device_id : String
  fixed_ip : List ports.IP
  allowed_address_pairs : List ports.AddressPair
  value_specs : List (String × String)
  all_fixed_ips : List String
  changed : List String
  Timeout : ResourceTimeout
  deriving DecidableEq, Repr

/-- The test `d.HasChange(key)`. -/
def PortData.HasChange (d : PortData) (key : String) : Bool := decide (key ∈ d.changed)

/-- The functions of the provider that the port resource calls and whose code is
not among the sources: the network-ID helpers of the package, `common.MapValueSpecs`
and `common.CheckDeleted` (which returns an error or nil and may clear the ID). -/
structure Helpers where
  ExtractValFromNid : String → Bool × String
  ExtractValSFromNid : String → String × String
  FormatNidFromValS : String → String → String
  MapValueSpecs : PortData → List (String × String)
  CheckDeleted : PortData → GoError → String → Option GoError × PortData

/-! ## The port resource -/

/-- `ResourcePortSecurityGroupsV2`: the configured security group IDs as a slice. -/
def ResourcePortSecurityGroupsV2 (d : PortData) : List String :=
  d.security_group_ids.map fun raw => raw

/-- `resourcePortFixedIpsV2`: nil when no fixed IP is configured, else the slice
of the configured ones. -/
def resourcePortFixedIpsV2 (d : PortData) : Option (List ports.IP) :=
  let rawIP := d.fixed_ip
  if rawIP.length = 0 then
    none
  else
    some (rawIP.map fun rawMap => { SubnetID := rawMap.SubnetID, IPAddress := rawMap.IPAddress })

/-- `resourceAllowedAddressPairsV2`: the configured address pairs as a slice. -/
def resourceAllowedAddressPairsV2 (d : PortData) : List ports.AddressPair :=
  let rawPairs := d.allowed_address_pairs
  rawPairs.map fun rawMap => { IPAddress := rawMap.IPAddress, MACAddress := rawMap.MACAddress }

/-- `resourcePortAdminStateUpV2`: a pointer to true when `admin_state_up` is set
and true (`d.GetOk` is ok for a non-zero value), else a pointer to false. -/
def resourcePortAdminStateUpV2 (d : PortData) : Option Bool :=
  let raw := d.admin_state_up
  let ok := raw != false
  let value := if ok && raw == true then true else false
  some value

/-- `resourceNetworkingPortV2Read`. Each `d.Set` stores a value of the
attribute's own type and so returns nil; the three error returns the source
guards them with are not reachable and have no counterpart here. -/
def resourceNetworkingPortV2Read (h : Helpers) (d : PortData) (cfg : Config) : OpResult PortData :=
  match cfg.NetworkingV2Client (cfg.GetRegion d.region) with
  | .error err =>
    { err := some (fmtErrorf ("Error creating OpenTelekomCloud networking client: " ++ err.Error)),
      d := d, sent := [] }
  | .ok networkingClient =>
    match networkingClient.atRead.portsGet d.Id with
    | .error err =>
      let r := h.CheckDeleted d err "port"
      { err := r.1, d := r.2, sent := [] }
    | .ok p =>
      let asu := (h.ExtractValSFromNid d.network_id).1
      let nid := h.FormatNidFromValS asu p.NetworkID
      let ips := p.FixedIPs.map fun ipObject => ipObject.IPAddress
      let pairs : List ports.AddressPair := p.AllowedAddressPairs.map fun pairObject =>
        { IPAddress := pairObject.IPAddress, MACAddress := pairObject.MACAddress }
      { err := none,
        d := { d with
          name := p.Name, admin_state_up := p.AdminStateUp, network_id := nid,
          mac_address := p.MACAddress, tenant_id := p.TenantID, device_owner := p.DeviceOwner,
          security_group_ids := p.SecurityGroups, device_id := p.DeviceID,
          all_fixed_ips := ips, allowed_address_pairs := pairs,
          region := cfg.GetRegion d.region },
        sent := [] }

/-- The wait of `resourceNetworkingPortV2Create`: no pending list, target `ACTIVE`. -/
def portCreateStateConf (networkingClient : Cloud) (d : PortData) (portId : String) :
    StateChangeConf ports.Port :=
  { Pending := [],
    Target := ["ACTIVE"],
    Refresh := fun k => waitForNetworkPortActive (networkingClient.atPoll k) portId,
    Timeout := d.Timeout.Create,
    Delay := 5,
    MinTimeout := 3 }

/-- `resourceNetworkingPortV2Create`. The error of the wait is assigned and never
read; the ID is set and the port is read whatever the wait returned. -/
def resourceNetworkingPortV2Create (h : Helpers) (fuel : Nat) (d : PortData) (cfg : Config) :
    Option (OpResult PortData) :=
  match cfg.NetworkingV2Client (cfg.GetRegion d.region) with
  | .error err =>
    some { err := some (fmtErrorf ("Error creating OpenTelekomCloud networking client: " ++ err.Error)),
           d := d, sent := [] }
  | .ok networkingClient =>
    let asu := (h.ExtractValFromNid d.network_id).1
    let id := (h.ExtractValFromNid d.network_id).2
    let pAsu := if !asu then some asu else resourcePortAdminStateUpV2 d
    let securityGroups := ResourcePortSecurityGroupsV2 d
    let noSecurityGroups := d.no_security_groups
    if noSecurityGroups = true ∧ securityGroups.length > 0 then
      some { err := some (fmtErrorf "Cannot have both no_security_groups and security_group_ids set"),
             d := d, sent := [] }
    else
      let createOpts : PortCreateOpts :=
        { CreateOpts :=
            { Name := d.name, AdminStateUp := pAsu, NetworkID := id, MACAddress := d.mac_address,
              TenantID := d.tenant_id, DeviceOwner := d.device_owner, DeviceID := d.device_id,
              FixedIPs := resourcePortFixedIpsV2 d,
              AllowedAddressPairs := resourceAllowedAddressPairsV2 d,
              SecurityGroups := none },
          ValueSpecs := h.MapValueSpecs d }
      let securityGroups := if noSecurityGroups then [] else securityGroups
      let createOpts : PortCreateOpts :=
        if noSecurityGroups then
          { createOpts with CreateOpts := { createOpts.CreateOpts with SecurityGroups := some securityGroups } }
        else createOpts
      let createOpts : PortCreateOpts :=
        if securityGroups.length > 0 then
          { createOpts with CreateOpts := { createOpts.CreateOpts with SecurityGroups := some securityGroups } }
        else createOpts
      match networkingClient.atRequest.portsCreate createOpts with
      | .error err =>
        some { err := some (fmtErrorf ("Error creating OpenTelekomCloud Neutron network: " ++ err.Error)),
               d := d, sent := [NetworkingRequest.portsCreate createOpts] }
      | .ok p =>
        match (portCreateStateConf networkingClient d p.ID).WaitForState fuel with
        | none => none
        | some _ =>
          let r := resourceNetworkingPortV2Read h { d with Id := p.ID } cfg
          some { r with sent := [NetworkingRequest.portsCreate createOpts] }

/-- `resourceNetworkingPortV2Update`: the update options start from the zero
value and a field is filled only under the `d.HasChange` test of its attribute;
the update request is sent when some attribute changed. -/
def resourceNetworkingPortV2Update (h : Helpers) (d : PortData) (cfg : Config) : OpResult PortData :=
  match cfg.NetworkingV2Client (cfg.GetRegion d.region) with
  | .error err =>
    { err := some (fmtErrorf ("Error creating OpenTelekomCloud networking client: " ++ err.Error)),
      d := d, sent := [] }
  | .ok networkingClient =>
    let noSecurityGroups := d.no_security_groups
    let hasChange := false
    let updateOpts := ports.UpdateOpts.zero
    let (hasChange, updateOpts) :=
      if d.HasChange "allowed_address_pairs" then
        let aap := resourceAllowedAddressPairsV2 d
        (true, { updateOpts with AllowedAddressPairs := some aap })
      else (hasChange, updateOpts)
    let (hasChange, updateOpts) :=
      if d.HasChange "no_security_groups" then
        if noSecurityGroups then
          let v : List String := []
          (true, { updateOpts with SecurityGroups := some v })
        else (hasChange, updateOpts)
      else (hasChange, updateOpts)
    let (hasChange, updateOpts) :=
      if d.HasChange "security_group_ids" then
        let securityGroups := ResourcePortSecurityGroupsV2 d
        (true, { updateOpts with SecurityGroups := some securityGroups })
      else (hasChange, updateOpts)
    let (hasChange, updateOpts) :=
      if d.HasChange "name" then
        (true, { updateOpts with Name := d.name })
      else (hasChange, updateOpts)
    let (hasChange, updateOpts) :=
      if d.HasChange "admin_state_up" then
        let asu := (h.ExtractValFromNid d.network_id).1
        let pAsu := if !asu then some asu else resourcePortAdminStateUpV2 d
        (true, { updateOpts with AdminStateUp := pAsu })
      else (hasChange, updateOpts)
    let (hasChange, updateOpts) :=
      if d.HasChange "device_owner" then
        (true, { updateOpts with DeviceOwner := d.device_owner })
      else (hasChange, updateOpts)
    let (hasChange, updateOpts) :=
      if d.HasChange "device_id" then
        (true, { updateOpts with DeviceID := d.device_id })
      else (hasChange, updateOpts)
    let (hasChange, updateOpts) :=
      if d.HasChange "fixed_ip" then
        (true, { updateOpts with FixedIPs := resourcePortFixedIpsV2 d })
      else (hasChange, updateOpts)
    if hasChange then
      match networkingClient.atRequest.portsUpdate d.Id updateOpts with
      | .error err =>
        { err := some (fmtErrorf ("Error updating OpenTelekomCloud Neutron Network: " ++ err.Error)),
          d := d, sent := [NetworkingRequest.portsUpdate d.Id updateOpts] }
      | .ok _ =>
        let r := resourceNetworkingPortV2Read h d cfg
        { r with sent := [NetworkingRequest.portsUpdate d.Id updateOpts] }
    else
      resourceNetworkingPortV2Read h d cfg

/-- The wait of `resourceNetworkingPortV2Delete`: pending `ACTIVE`, target
`DELETED`, polled by `waitForNetworkPortDelete`. -/
def portDeleteStateConf (networkingClient : Cloud) (d : PortData) : StateChangeConf ports.Port :=
  { Pending := ["ACTIVE"],
    Target := ["DELETED"],
    Refresh := fun k => waitForNetworkPortDelete (networkingClient.atPoll k) d.Id,
    Timeout := d.Timeout.Delete,
    Delay := 5,
    MinTimeout := 3 }

/-- `resourceNetworkingPortV2Delete`: the ID is cleared when the wait succeeds. -/
def resourceNetworkingPortV2Delete (fuel : Nat) (d : PortData) (cfg : Config) :
    Option (OpResult PortData) :=
  match cfg.NetworkingV2Client (cfg.GetRegion d.region) with
  | .error err =>
    some { err := some (fmtErrorf ("Error creating OpenTelekomCloud networking client: " ++ err.Error)),
           d := d, sent := [] }
  | .ok networkingClient =>
    match (portDeleteStateConf networkingClient d).WaitForState fuel with
    | none => none
    | some (.error err) =>
      some { err := some (fmtErrorf ("Error deleting OpenTelekomCloud Neutron Network: " ++ err.Error)),
             d := d, sent := [] }
    | some (.ok _) => some { err := none, d := { d with Id := "" }, sent := [] }

/-! ## The router interface resource -/

/-- `resourceNetworkingRouterInterfaceV2Read`: a 404 clears the ID. -/
def resourceNetworkingRouterInterfaceV2Read (d : RouterInterfaceData) (cfg : Config) :
    OpResult RouterInterfaceData :=
  match cfg.NetworkingV2Client (cfg.GetRegion d.region) with
  | .error err =>
    { err := some (fmtErrorf ("Error creating OpenTelekomCloud networking client: " ++ err.Error)),
      d := d, sent := [] }
  | .ok networkingClient =>
    match networkingClient.atRead.portsGet d.Id with
    | .error err =>
      if err.isErrDefault404 then
        { err := none, d := { d with Id := "" }, sent := [] }
      else
        { err := some (fmtErrorf ("Error retrieving OpenTelekomCloud Neutron Router Interface: " ++ err.Error)),
          d := d, sent := [] }
    | .ok _ => { err := none, d := { d with region := cfg.GetRegion d.region }, sent := [] }

/-- The wait of `resourceNetworkingRouterInterfaceV2Create`: pending `BUILD`,
`PENDING_CREATE`, `PENDING_UPDATE`, target `ACTIVE`. -/
def routerInterfaceCreateStateConf (networkingClient : Cloud) (d : RouterInterfaceData)
    (portId : String) : StateChangeConf ports.Port :=
  { Pending := ["BUILD", "PENDING_CREATE", "PENDING_UPDATE"],
    Target := ["ACTIVE"],
    Refresh := fun k => waitForRouterInterfaceActive (networkingClient.atPoll k) portId,
    Timeout := d.Timeout.Create,
    Delay := 5,
    MinTimeout := 3 }

/-- `resourceNetworkingRouterInterfaceV2Create`. The error of the wait is
assigned and never read. -/
def resourceNetworkingRouterInterfaceV2Create (fuel : Nat) (d : RouterInterfaceData) (cfg : Config) :
    Option (OpResult RouterInterfaceData) :=
  match cfg.NetworkingV2Client (cfg.GetRegion d.region) with
  | .error err =>
    some { err := some (fmtErrorf ("Error creating OpenTelekomCloud networking client: " ++ err.Error)),
           d := d, sent := [] }
  | .ok networkingClient =>
    let createOpts : routers.AddInterfaceOpts := { SubnetID := d.subnet_id, PortID := d.port_id }
    match networkingClient.atRequest.routersAddInterface d.router_id createOpts with
    | .error err =>
      some { err := some (fmtErrorf ("Error creating OpenTelekomCloud Neutron router interface: " ++ err.Error)),
             d := d, sent := [NetworkingRequest.routersAddInterface d.router_id createOpts] }
    | .ok n =>
      match (routerInterfaceCreateStateConf networkingClient d n.PortID).WaitForState fuel with
      | none => none
      | some _ =>
        let r := resourceNetworkingRouterInterfaceV2Read { d with Id := n.PortID } cfg
        some { r with sent := [NetworkingRequest.routersAddInterface d.router_id createOpts] }

/-- The wait of `resourceNetworkingRouterInterfaceV2Delete`: pending `ACTIVE`,
target `DELETED`, polled by `waitForRouterInterfaceDelete`. -/
def routerInterfaceDeleteStateConf (networkingClient : Cloud) (d : RouterInterfaceData) :
    StateChangeConf ports.Port :=
  { Pending := ["ACTIVE"],
    Target := ["DELETED"],
    Refresh := fun k => waitForRouterInterfaceDelete (networkingClient.atPoll k) d,
    Timeout := d.Timeout.Delete,
    Delay := 5,
    MinTimeout := 3 }

/-- `resourceNetworkingRouterInterfaceV2Delete`: the ID is cleared when the wait
succeeds. -/
def resourceNetworkingRouterInterfaceV2Delete (fuel : Nat) (d : RouterInterfaceData) (cfg : Config) :
    Option (OpResult RouterInterfaceData) :=
  match cfg.NetworkingV2Client (cfg.GetRegion d.region) with
  | .error err =>
    some { err := some (fmtErrorf ("Error creating OpenTelekomCloud networking client: " ++ err.Error)),
           d := d, sent := [] }
  | .ok networkingClient =>
    match (routerInterfaceDeleteStateConf networkingClient d).WaitForState fuel with
    | none => none
    | some (.error err) =>
      some { err := some (fmtErrorf ("Error deleting OpenTelekomCloud Neutron Router Interface: " ++ err.Error)),
             d := d, sent := [] }
    | some (.ok _) => some { err := none, d := { d with Id := "" }, sent := [] }

/-! ## The image resource -/

namespace cloudimages

/-- One tag of an image (`cloudimages.ImageTag`). -/
structure ImageTag where
  Key : String
  Value : String
  deriving DecidableEq, Repr

/-- The options of `CreateImageByServer`. -/
structure CreateByServerOpts where
  Name : String
  Description : String
  InstanceId : String
  MaxRam : Int
  MinRam : Int
  ImageTags : List ImageTag
  deriving DecidableEq, Repr

/-- The options of `CreateImageByOBS`. -/
structure CreateByOBSOpts where
  Name : String
  Description : String
  ImageUrl : String
  MinDisk : Int
  MaxRam : Int
  MinRam : Int
  OsVersion : String
  IsConfig : Bool
  CmkId : String
  Type_ : String
  ImageTags : List ImageTag
  deriving DecidableEq, Repr

/-- The answer of a create request: the job that builds the image. -/
structure JobResponse where
  JobID : String
  deriving DecidableEq, Repr

/-- The options of `cloudimages.List`. -/
structure ListOpts where
  ID : String
  Limit : Nat
  deriving DecidableEq, Repr

/-- An image as the image service lists it, with the fields the resource reads. -/
structure Image where
  ID : String
  Name : String
  Visibility : String
  File : String
  Schema : String
  DataOrigin : String
  DiskFormat : String
  ImageSize : String
  deriving DecidableEq, Repr

/-- An entity of a finished job (`interface{}`): a string, or a value of another
dynamic type. -/
inductive JobEntity where
  | string (s : String)
  | other
  deriving DecidableEq, Repr

/-- The pages `List(...).AllPages()` returns, with what `ExtractImages` makes of them. -/
structure Pages where
  images : Except GoError (List Image)

/-- `cloudimages.ExtractImages`. -/
def ExtractImages (allPages : Pages) : Except GoError (List Image) := allPages.images

end cloudimages

/-- The image service: the answer to each request of the image resource. -/
structure ImsClient where
  CreateImageByServer : cloudimages.CreateByServerOpts → Except GoError cloudimages.JobResponse
  CreateImageByOBS : cloudimages.CreateByOBSOpts → Except GoError cloudimages.JobResponse
  WaitForJobSuccess : Nat → String → Option GoError
  GetJobEntity : String → String → Except GoError cloudimages.JobEntity
  ListAllPages : cloudimages.ListOpts → Except GoError cloudimages.Pages

/-- The resource data of `opentelekomcloud_ims_image_v2`. The map `image_tags` is
held as the list of its entries in the order one iteration over it visits them. -/
structure ImageData where
  Id : String
  name : String
  description : String
  image_tags : List (String × String)
  max_ram : Int
  min_ram : Int
  instance_id : String
  image_url : String
  min_disk : Int
  os_version : String
  is_config : Bool
  cmk_id : String
  type : String
  visibility : String
  data_origin : String
  disk_format : String
  image_size : String
  Timeout : ResourceTimeout
  deriving DecidableEq, Repr

/-- The configuration as the image resource uses it: the image client for a
region, which may fail to be built. -/
structure ImsConfig where
  imageV2Client : String → Except GoError ImsClient

/-- The functions of the provider that the image resource calls and whose code is
not among the sources: `GetRegion(d, config)` and `hasFilledOpt(d, param)`. -/
structure ImsHelpers where
  GetRegion : ImageData → ImsConfig → String
  hasFilledOpt : ImageData → String → Bool

/-- The create requests of the image service. -/
inductive ImsRequest where
  | CreateImageByServer (opts : cloudimages.CreateByServerOpts)
  | CreateImageByOBS (opts : cloudimages.CreateByOBSOpts)
  deriving DecidableEq, Repr

/-- The outcome of a function of the image resource: the returned error, the
resource data it leaves and the create requests it sent, in order. -/
structure ImsResult where
  err : Option GoError
  d : ImageData
  sent : List ImsRequest
  deriving DecidableEq, Repr

/-- `resourceContainerImageTags`: one tag per entry of `image_tags`. -/
def resourceContainerImageTags (d : ImageData) : List cloudimages.ImageTag :=
  d.image_tags.map fun kv => { Key := kv.1, Value := kv.2 }

/-- `getCloudimage`: the first image of the listing filtered by ID, which must
carry the requested ID. -/
def getCloudimage (client : ImsClient) (id : String) : Except GoError cloudimages.Image :=
  let listOpts : cloudimages.ListOpts := { ID := id, Limit := 1 }
  match client.ListAllPages listOpts with
  | .error err => .error (fmtErrorf ("Unable to query images: " ++ err.Error))
  | .ok allPages =>
    match cloudimages.ExtractImages allPages with
    | .error err => .error (fmtErrorf ("Unable to retrieve images: " ++ err.Error))
    | .ok allImages =>
      match allImages with
      | [] => .error (fmtErrorf ("Unable to find images " ++ id ++ ": Maybe not existed"))
      | img :: _ =>
        if img.ID ≠ id then
          .error (fmtErrorf "Unexpected images ID")
        else
          .ok img

/-- `resourceImsImageV2Read`. The attributes `file` and `schema` are not in the
schema of the resource, so `d.Set` on them returns an error, which the source
drops, and stores nothing. -/
def resourceImsImageV2Read (h : ImsHelpers) (d : ImageData) (cfg : ImsConfig) : ImsResult :=
  match cfg.imageV2Client (h.GetRegion d cfg) with
  | .error err =>
    { err := some (fmtErrorf ("Error creating OpenTelekomCloud image client: " ++ err.Error)),
      d := d, sent := [] }
  | .ok ims_Client =>
    match getCloudimage ims_Client d.Id with
    | .error err =>
      { err := some (fmtErrorf ("Image " ++ d.Id ++ " not found: " ++ err.Error)), d := d, sent := [] }
    | .ok img =>
      { err := none,
        d := { d with
          name := img.Name, visibility := img.Visibility, data_origin := img.DataOrigin,
          disk_format := img.DiskFormat, image_size := img.ImageSize },
        sent := [] }

/-- The part of `resourceImsImageV2Create` after the create request: the wait for
the job, the lookup of the job's `image_id`, and the read of the new image. -/
def resourceImsImageV2CreateFinish (h : ImsHelpers) (d : ImageData) (cfg : ImsConfig)
    (ims_Client : ImsClient) (created : Except GoError cloudimages.JobResponse)
    (sent : List ImsRequest) : ImsResult :=
  match created with
  | .error err =>
    { err := some (fmtErrorf ("Error creating OpenTelekomCloud IMS: " ++ err.Error)), d := d, sent := sent }
  | .ok v =>
    match ims_Client.WaitForJobSuccess d.Timeout.Create v.JobID with
    | some err => { err := some err, d := d, sent := sent }
    | none =>
      match ims_Client.GetJobEntity v.JobID "image_id" with
      | .error err => { err := some err, d := d, sent := sent }
      | .ok entity =>
        match entity with
        | .string id =>
          let r := resourceImsImageV2Read h { d with Id := id } cfg
          { r with sent := sent }
        | .other =>
          { err := some (fmtErrorf "Unexpected conversion error in resourceImsImageV2Create."),
            d := d, sent := sent }

/-- `resourceImsImageV2Create`: an image is created from a server when
`instance_id` is filled, else from an OBS file. -/
def resourceImsImageV2Create (h : ImsHelpers) (d : ImageData) (cfg : ImsConfig) : ImsResult :=
  match cfg.imageV2Client (h.GetRegion d cfg) with
  | .error err =>
    { err := some (fmtErrorf ("Error creating OpenTelekomCloud image client: " ++ err.Error)),
      d := d, sent := [] }
  | .ok ims_Client =>
    if (!h.hasFilledOpt d "instance_id" && !h.hasFilledOpt d "image_url") = true then
      { err := some (fmtErrorf ("Error creating OpenTelekomCloud IMS: " ++
          "Either 'instance_id' or 'image_url' must be specified")),
        d := d, sent := [] }
    else
      let image_tags := resourceContainerImageTags d
      if h.hasFilledOpt d "instance_id" = true then
        let createOpts : cloudimages.CreateByServerOpts :=
          { Name := d.name, Description := d.description, InstanceId := d.instance_id,
            MaxRam := d.max_ram, MinRam := d.min_ram, ImageTags := image_tags }
        resourceImsImageV2CreateFinish h d cfg ims_Client (ims_Client.CreateImageByServer createOpts)
          [ImsRequest.CreateImageByServer createOpts]
      else
        if (!h.hasFilledOpt d "min_disk") = true then
          { err := some (fmtErrorf "Error creating OpenTelekomCloud IMS: 'min_disk' must be specified"),
            d := d, sent := [] }
        else
          let createOpts : cloudimages.CreateByOBSOpts :=
            { Name := d.name, Description := d.description, ImageUrl := d.image_url,
              MinDisk := d.min_disk, MaxRam := d.max_ram, MinRam := d.min_ram,
              OsVersion := d.os_version, IsConfig := d.is_config, CmkId := d.cmk_id,
              Type_ := d.type, ImageTags := image_tags }
          resourceImsImageV2CreateFinish h d cfg ims_Client (ims_Client.CreateImageByOBS createOpts)
            [ImsRequest.CreateImageByOBS createOpts]


/-! ## Sample inputs -/

/-- A port in status `ACTIVE`. -/
def samplePort : ports.Port :=
  { ID := "port-1", NetworkID := "net-1", Name := "web", AdminStateUp := true, Status := "ACTIVE",
    MACAddress := "fa:16:3e:00:00:01", FixedIPs := [{ SubnetID := "subnet-1", IPAddress := "10.0.0.5" }],
    TenantID := "tenant-1", DeviceOwner := "", SecurityGroups := ["sg-1"], DeviceID := "",
    AllowedAddressPairs := [] }

/-- The answer of a router to an interface request. -/
def sampleInterfaceInfo : routers.InterfaceInfo :=
  { SubnetID := "subnet-1", PortID := "port-1", ID := "router-1", TenantID := "tenant-1" }

/-- A networking service that gives the same answer to every port read, to every
port deletion and to every interface removal, and accepts every other request. -/
def stubClient (get : Except GoError ports.Port) (del : Except GoError Unit)
    (remove : Except GoError routers.InterfaceInfo) : NetworkingClient :=
  { portsGet := fun _ => get,
    portsDelete := fun _ => del,
    portsCreate := fun _ => .ok samplePort,
    portsUpdate := fun _ _ => .ok samplePort,
    routersAddInterface := fun _ _ => .ok sampleInterfaceInfo,
    routersRemoveInterface := fun _ _ => remove }

/-- A router interface under deletion. -/
def sampleRouterInterface : RouterInterfaceData :=
  { Id := "port-1", region := "eu-de", router_id := "router-1", subnet_id := "subnet-1",
    port_id := "", Timeout := { Create := 600, Delete := 600 } }

/-- A cloud that gives the answers of `first` to the polls before the `n`-th and
the answers of `second` from the `n`-th poll on, and to every other request. -/
def cloudThen (first second : NetworkingClient) (n : Nat) : Cloud :=
  { atRequest := second,
    atPoll := fun k => if k < n then first else second,
    atRead := second }

/-- A configuration whose networking client is built and talks to `cloud`. -/
def sampleConfig (cloud : Cloud) : Config :=
  { GetRegion := fun region => region,
    NetworkingV2Client := fun _ => .ok cloud }

/-- A port resource with the default timeouts of ten minutes. -/
def samplePortData : PortData :=
  { Id := "port-1", region := "eu-de", name := "web", network_id := "net-1", admin_state_up := true,
    mac_address := "", tenant_id := "", device_owner := "", security_group_ids := ["sg-1"],
    no_security_groups := false, device_id := "", fixed_ip := [], allowed_address_pairs := [],
    value_specs := [], all_fixed_ips := [], changed := [],
    Timeout := { Create := 600, Delete := 600 } }

/-- A service on which the port exists and every deletion is accepted. -/
def activeClient : NetworkingClient :=
  stubClient (.ok samplePort) (.ok ()) (.ok sampleInterfaceInfo)

/-- A service on which the port is gone: every port read is answered with a 404. -/
def goneClient : NetworkingClient :=
  stubClient (.error (GoError.ErrDefault404 "Resource not found")) (.ok ()) (.ok sampleInterfaceInfo)

/-- A service whose port reads fail with a server error. -/
def failingClient : NetworkingClient :=
  stubClient (.error (GoError.ErrOther "Internal Server Error")) (.ok ()) (.ok sampleInterfaceInfo)

/-- A service on which the port is still being built. -/
def buildingClient : NetworkingClient :=
  stubClient (.ok { samplePort with Status := "BUILD" }) (.ok ()) (.ok sampleInterfaceInfo)

/-- A cloud that gives the answers of `c` to every request. -/
def steadyCloud (c : NetworkingClient) : Cloud :=
  { atRequest := c, atPoll := fun _ => c, atRead := c }

/-- Helpers for the port resource: a network ID without a flag, the value specs of
the resource, and a `CheckDeleted` that clears the ID on a 404 and otherwise
returns the error under the given label. -/
def sampleHelpers : Helpers :=
  { ExtractValFromNid := fun s => (true, s),
    ExtractValSFromNid := fun s => ("true", s),
    FormatNidFromValS := fun _ id => id,
    MapValueSpecs := fun d => d.value_specs,
    CheckDeleted := fun d err msg =>
      if err.isErrDefault404 then (none, { d with Id := "" })
      else (some (fmtErrorf (msg ++ ": " ++ err.Error)), d) }

/-- A new port resource configured with both `no_security_groups` and a security
group. -/
def conflictingPortData : PortData :=
  { samplePortData with Id := "", no_security_groups := true }

/-- A port resource of which only the name changed. -/
def renamedPortData : PortData :=
  { samplePortData with name := "web-2", changed := ["name"] }

/-- An image service that accepts every request and lists no image. -/
def sampleImsClient : ImsClient :=
  { CreateImageByServer := fun _ => .ok { JobID := "job-1" },
    CreateImageByOBS := fun _ => .ok { JobID := "job-2" },
    WaitForJobSuccess := fun _ _ => none,
    GetJobEntity := fun _ _ => .ok (cloudimages.JobEntity.string "image-1"),
    ListAllPages := fun _ => .ok { images := .ok [] } }

/-- A configuration whose image client is built. -/
def sampleImsConfig : ImsConfig :=
  { imageV2Client := fun _ => .ok sampleImsClient }

/-- A configuration whose image client cannot be built. -/
def brokenImsConfig : ImsConfig :=
  { imageV2Client := fun _ => .error (GoError.ErrOther "no endpoint for region") }

/-- Helpers for the image resource: a fixed region, and an attribute counts as
filled when its value is not the zero value. -/
def sampleImsHelpers : ImsHelpers :=
  { GetRegion := fun _ _ => "eu-de",
    hasFilledOpt := fun d param =>
      if param = "instance_id" then d.instance_id != ""
      else if param = "image_url" then d.image_url != ""
      else if param = "min_disk" then d.min_disk != 0
      else false }

/-- An image resource with neither `instance_id` nor `image_url`. -/
def sourcelessImageData : ImageData :=
  { Id := "", name := "image", description := "", image_tags := [], max_ram := 0, min_ram := 0,
    instance_id := "", image_url := "", min_disk := 0, os_version := "", is_config := false,
    cmk_id := "", type := "", visibility := "", data_origin := "", disk_format := "",
    image_size := "", Timeout := { Create := 600, Delete := 180 } }

/-- The create options `resourceNetworkingPortV2Create` builds for `samplePortData`
with `sampleHelpers`. -/
def sampleCreateOpts : PortCreateOpts :=
  { CreateOpts :=
      { NetworkID := "net-1", Name := "web", AdminStateUp := some true, MACAddress := "",
        FixedIPs := none, DeviceID := "", DeviceOwner := "", TenantID := "",
        SecurityGroups := some ["sg-1"], AllowedAddressPairs := [] },
    ValueSpecs := [] }

/-- A new port resource with `no_security_groups` set and no security group. -/
def noGroupsPortData : PortData :=
  { samplePortData with Id := "", security_group_ids := [], no_security_groups := true }

/-- A new port resource with neither `no_security_groups` nor a security group. -/
def plainPortData : PortData :=
  { samplePortData with Id := "", security_group_ids := [] }

/-- The answer of the image service to a create request. -/
def ImsClient.answer (client : ImsClient) : ImsRequest → Except GoError cloudimages.JobResponse
  | .CreateImageByServer opts => client.CreateImageByServer opts
  | .CreateImageByOBS opts => client.CreateImageByOBS opts

/-- An image resource to be created from the OBS file `image_url`, without `min_disk`. -/
def obsImageData : ImageData :=
  { sourcelessImageData with image_url := "bucket:image.qcow2" }

/-- An image resource to be created from the server `instance_id`, without `min_disk`. -/
def serverImageData : ImageData :=
  { sourcelessImageData with instance_id := "server-1" }

/-- The image `image-1` as the image service lists it. -/
def sampleImage : cloudimages.Image :=
  { ID := "image-1", Name := "image", Visibility := "private", File := "/v2/images/image-1/file",
    Schema := "/v2/schemas/image", DataOrigin := "instance,server-1", DiskFormat := "zvhd2",
    ImageSize := "1073741824" }

/-- An image service that accepts every request and lists the image `image-1`. -/
def listingImsClient : ImsClient :=
  { sampleImsClient with ListAllPages := fun _ => .ok { images := .ok [sampleImage] } }

/-- A configuration whose image client is built and lists the image `image-1`. -/
def listingImsConfig : ImsConfig :=
  { imageV2Client := fun _ => .ok listingImsClient }

/-- The create-by-server request `resourceImsImageV2Create` builds for
`serverImageData`. -/
def serverImageRequest : ImsRequest :=
  ImsRequest.CreateImageByServer
    { Name := "image", Description := "", InstanceId := "server-1", MaxRam := 0, MinRam := 0,
      ImageTags := [] }

/-! ## The access rules of a file share -/

namespace shares

/-- One access right of a share as the file share API lists it (`shares.AccessRight`). -/
structure AccessRight where
  ID : String
  ShareID : String
  AccessType : String
  AccessTo : String
  AccessLevel : String
  State : String
  deriving DecidableEq, Repr

end shares

/-- The file share service: the answer to the listing of the access rights of a share. -/
structure SfsClient where
  ListAccessRights : String → Except GoError (List shares.AccessRight)

/-- One element of the attribute `access_rule`. -/
structure AccessRuleData where
  access_level : String
  access_type : String
  access_to : String
  access_rule_status : String
  share_access_id : String
  deriving DecidableEq, Repr

/-- The resource data of `opentelekomcloud_sfs_share_access_rules_v2`. -/
structure ShareAccessRulesData where
  Id : String
  share_id : String
  access_rule : List AccessRuleData
  deriving DecidableEq, Repr

/-- The configuration as the file share resource uses it: the region chosen for
the resource and the file share client for a region, which may fail to be built. -/
structure SfsConfig where
  GetRegion : ShareAccessRulesData → String
  SfsV2Client : String → Except GoError SfsClient

/-- The outcome of a function of the file share resource: the returned error and
the resource data it leaves. -/
structure SfsResult where
  err : Option GoError
  d : ShareAccessRulesData
  deriving DecidableEq, Repr

/-- `resourceSFSShareAccessRulesV2Read`: a 404 clears the ID; otherwise one element
of `access_rule` is written per access right, and `share_id` is the ID. Both
`d.Set` store a value of the attribute's own type and so return nil; the two error
returns the source guards them with are not reachable and have no counterpart
here. -/
def resourceSFSShareAccessRulesV2Read (d : ShareAccessRulesData) (cfg : SfsConfig) : SfsResult :=
  match cfg.SfsV2Client (cfg.GetRegion d) with
  | .error err =>
    { err := some (fmtErrorf ("error creating OpenTelekomCloud File Share client: " ++ err.Error)),
      d := d }
  | .ok client =>
    match client.ListAccessRights d.Id with
    | .error err =>
      if err.isErrDefault404 then
        { err := none, d := { d with Id := "" } }
      else
        { err := some (fmtErrorf
            ("error retrieving rules of OpenTelekomCloud File Share: " ++ err.Error)),
          d := d }
    | .ok rules =>
      let accessRules : List AccessRuleData := rules.map fun v =>
        { access_level := v.AccessLevel, access_to := v.AccessTo, access_type := v.AccessType,
          access_rule_status := v.State, share_access_id := v.ID }
      { err := none, d := { d with access_rule := accessRules, share_id := d.Id } }

/-- Two access rights of the share `share-1`. -/
def sampleAccessRights : List shares.AccessRight :=
  [{ ID := "access-1", ShareID := "share-1", AccessType := "cert", AccessTo := "vpc-1",
     AccessLevel := "rw", State := "active" },
   { ID := "access-2", ShareID := "share-1", AccessType := "cert", AccessTo := "vpc-2",
     AccessLevel := "ro", State := "active" }]

/-- A file share service that lists `sampleAccessRights` for every share. -/
def sampleSfsClient : SfsClient :=
  { ListAccessRights := fun _ => .ok sampleAccessRights }

/-- A configuration whose file share client is built. -/
def sampleSfsConfig : SfsConfig :=
  { GetRegion := fun _ => "eu-de", SfsV2Client := fun _ => .ok sampleSfsClient }

/-- The access rules resource of the share `share-1` before it is read. -/
def sampleShareAccessRulesData : ShareAccessRulesData :=
  { Id := "share-1", share_id := "", access_rule := [] }

/-! ## The load balancer monitor resource -/

namespace monitors

/-- The options of a monitor creation (`monitors.CreateOpts`). -/
structure CreateOpts where
  PoolID : String
  TenantID : String
  Type_ : String
  Delay : Int
  Timeout : Int
  MaxRetries : Int
  URLPath : String
  HTTPMethod : String
  ExpectedCodes : String
  Name : String
  AdminStateUp : Option Bool
  MonitorPort : Int
  deriving DecidableEq, Repr

/-- The options of a monitor update (`monitors.UpdateOpts`). -/
structure UpdateOpts where
  Delay : Int
  Timeout : Int
  MaxRetries : Int
  URLPath : String
  HTTPMethod : String
  ExpectedCodes : String
  Name : String
  AdminStateUp : Option Bool
  MonitorPort : Int
  deriving DecidableEq, Repr

/-- The zero value of `monitors.UpdateOpts`, the value of the declared variable
`var updateOpts monitors.UpdateOpts`. -/
def UpdateOpts.zero : UpdateOpts :=
  { Delay := 0, Timeout := 0, MaxRetries := 0, URLPath := "", HTTPMethod := "",
    ExpectedCodes := "", Name := "", AdminStateUp := none, MonitorPort := 0 }

/-- A monitor as the load balancer API returns it (`monitors.Monitor`). -/
structure Monitor where
  ID : String
  Name : String
  TenantID : String
  Type_ : String
  Delay : Int
  Timeout : Int
  MaxRetries : Int
  HTTPMethod : String
  URLPath : String
  ExpectedCodes : String
  AdminStateUp : Bool
  MonitorPort : Int
  deriving DecidableEq, Repr

end monitors

/-- The load balancer service as one call sees it: the answer to each request on
monitors. -/
structure LBClient where
  monitorsCreate : monitors.CreateOpts → Except GoError monitors.Monitor
  monitorsUpdate : String → monitors.UpdateOpts → Except GoError monitors.Monitor
  monitorsDelete : String → Except GoError Unit
  monitorsGet : String → Except GoError monitors.Monitor

/-- The load balancer service over one operation of the monitor resource: the
answers to the `k`-th attempt of the retried request and to the final read. -/
structure LBCloud where
  atAttempt : Nat → LBClient
  atRead : LBClient

/-- The configuration as the monitor resource uses it: the region chosen for a
resource from its `region` attribute, and the networking client for a region. -/
structure LBConfig where
  GetRegion : String → String
  NetworkingV2Client : String → Except GoError LBCloud

/-- The timeouts of the monitor resource, in seconds (`d.Timeout(schema.TimeoutCreate)`,
`d.Timeout(schema.TimeoutUpdate)`, `d.Timeout(schema.TimeoutDelete)`). -/
structure MonitorTimeout where
  Create : Nat
  Update : Nat
  Delete : Nat
  deriving DecidableEq, Repr

/-- The resource data of `opentelekomcloud_lb_monitor_v2`; `changed` lists the
attributes for which `d.HasChange` is true. -/
structure MonitorData where
  Id : String
  region : String
  pool_id : String
  name : String
  tenant_id : String
  type : String
  delay : Int
  timeout : Int
  max_retries : Int
  url_path : String
  http_method : String
  expected_codes : String
  admin_state_up : Bool
  monitor_port : Int
  changed : List String
  Timeout : MonitorTimeout
  deriving DecidableEq, Repr

/-- The test `d.HasChange(key)`. -/
def MonitorData.HasChange (d : MonitorData) (key : String) : Bool := decide (key ∈ d.changed)

/-- What the function given to `resource.Retry` returns when it fails
(`resource.RetryError`): the error and whether the call is to be tried again. -/
structure RetryError where
  Err : GoError
  Retryable : Bool
  deriving DecidableEq, Repr

/-- The functions of the provider that the monitor resource calls and whose code
is not among the sources. `waitForLBV2viaPool call networkingClient poolID target
timeout` is the error (or nil) of the call of that helper which `call` earlier
calls precede in the same operation; `common.CheckForRetryableError` classifies an
error; `common.CheckDeleted` returns an error or nil and may clear the ID. -/
structure MonitorHelpers where
  waitForLBV2viaPool : Nat → LBCloud → String → String → Nat → Option GoError
  CheckForRetryableError : GoError → RetryError
  CheckDeleted : MonitorData → GoError → String → Option GoError × MonitorData

/-- Modelled from the spec: the loop of `resource.Retry` of the plugin SDK, whose
code is not among the sources, as the poll-until-condition primitive with timeout
and retryable-error classification. `f attempt` is what the retried function
returns at its `attempt`-th call: a value ends the loop with success, an error
that is not retryable ends it with that error, a retryable error is followed by
the next attempt one second later, and the loop fails with a `TimeoutError` once
the timeout has elapsed. `fuel` bounds the number of attempts: `none` means the
loop was still retrying when the fuel ran out. -/
def retryLoop {α : Type} (timeout : Nat) (f : Nat → Except RetryError α) :
    Nat → Nat → Nat → Option (Except GoError α)
  | 0, _, _ => none
  | fuel + 1, elapsed, attempt =>
    if timeout ≤ elapsed then
      some (.error GoError.TimeoutError)
    else
      match f attempt with
      | .ok a => some (.ok a)
      | .error rerr =>
        if rerr.Retryable then
          retryLoop timeout f fuel (elapsed + 1) (attempt + 1)
        else
          some (.error rerr.Err)

/-- Modelled from the spec: `resource.Retry(timeout, f)`, which is `retryLoop`
started with no time elapsed at the first call of `f`. -/
def Retry {α : Type} (timeout : Nat) (f : Nat → Except RetryError α) (fuel : Nat) :
    Option (Except GoError α) :=
  retryLoop timeout f fuel 0 0

/-- The requests that create, change or delete a monitor. -/
inductive MonitorRequest where
  | Create (opts : monitors.CreateOpts)
  | Update (id : String) (opts : monitors.UpdateOpts)
  | Delete (id : String)
  deriving DecidableEq, Repr

/-- The calls an operation of the monitor resource makes to wait for the pool
and to send its request: `waitForLBV2viaPool` with its pool ID, target status and
timeout, and `resource.Retry` with its timeout and the request it retries. -/
inductive MonitorCall where
  | waitForLBV2viaPool (poolID : String) (target : String) (timeout : Nat)
  | Retry (timeout : Nat) (request : MonitorRequest)
  deriving DecidableEq, Repr

/-- The timeout an operation passed to a call. -/
def MonitorCall.timeout : MonitorCall → Nat
  | .waitForLBV2viaPool _ _ timeout => timeout
  | .Retry timeout _ => timeout

/-- The outcome of a function of the monitor resource: the returned error, the
resource data it leaves, and the calls of `waitForLBV2viaPool` and
`resource.Retry` it made, in order. -/
structure MonitorResult where
  err : Option GoError
  d : MonitorData
  calls : List MonitorCall
  deriving DecidableEq, Repr

/-- `resourceMonitorV2Read`. Each `d.Set` stores a value of the attribute's own
type and so returns nil, and `mErr.ErrorOrNil()` of no error is nil. -/
def resourceMonitorV2Read (h : MonitorHelpers) (d : MonitorData) (cfg : LBConfig) : MonitorResult :=
  match cfg.NetworkingV2Client (cfg.GetRegion d.region) with
  | .error err =>
    { err := some (fmtErrorf ("error creating OpenTelekomCloud networking client: " ++ err.Error)),
      d := d, calls := [] }
  | .ok networkingClient =>
    match networkingClient.atRead.monitorsGet d.Id with
    | .error err =>
      let r := h.CheckDeleted d err "monitor"
      { err := r.1, d := r.2, calls := [] }
    | .ok monitor =>
      { err := none,
        d := { d with
          tenant_id := monitor.TenantID, type := monitor.Type_, delay := monitor.Delay,
          timeout := monitor.Timeout, max_retries := monitor.MaxRetries,
          url_path := monitor.URLPath, http_method := monitor.HTTPMethod,
          expected_codes := monitor.ExpectedCodes, admin_state_up := monitor.AdminStateUp,
          name := monitor.Name, monitor_port := monitor.MonitorPort,
          region := cfg.GetRegion d.region },
        calls := [] }

/-- `resourceMonitorV2Create`: the parent pool is awaited, the creation is
retried, the pool is awaited again, then the ID is set and the monitor is read. -/
def resourceMonitorV2Create (h : MonitorHelpers) (fuel : Nat) (d : MonitorData) (cfg : LBConfig) :
    Option MonitorResult :=
  match cfg.NetworkingV2Client (cfg.GetRegion d.region) with
  | .error err =>
    some { err := some (fmtErrorf
             ("error creating OpenTelekomCloud networking client: " ++ err.Error)),
           d := d, calls := [] }
  | .ok networkingClient =>
    let adminStateUp := d.admin_state_up
    let createOpts : monitors.CreateOpts :=
      { PoolID := d.pool_id, TenantID := d.tenant_id, Type_ := d.type, Delay := d.delay,
        Timeout := d.timeout, MaxRetries := d.max_retries, URLPath := d.url_path,
        HTTPMethod := d.http_method, ExpectedCodes := d.expected_codes, Name := d.name,
        AdminStateUp := some adminStateUp, MonitorPort := d.monitor_port }
    let timeout := d.Timeout.Create
    let poolID := createOpts.PoolID
    match h.waitForLBV2viaPool 0 networkingClient poolID "ACTIVE" timeout with
    | some err =>
      some { err := some err, d := d,
             calls := [MonitorCall.waitForLBV2viaPool poolID "ACTIVE" timeout] }
    | none =>
      match Retry timeout (fun attempt =>
          match (networkingClient.atAttempt attempt).monitorsCreate createOpts with
          | .error err => .error (h.CheckForRetryableError err)
          | .ok monitor => .ok monitor) fuel with
      | none => none
      | some (.error err) =>
        some { err := some (fmtErrorf ("unable to create monitor: " ++ err.Error)), d := d,
               calls := [MonitorCall.waitForLBV2viaPool poolID "ACTIVE" timeout,
                         MonitorCall.Retry timeout (MonitorRequest.Create createOpts)] }
      | some (.ok monitor) =>
        match h.waitForLBV2viaPool 1 networkingClient poolID "ACTIVE" timeout with
        | some err =>
          some { err := some err, d := d,
                 calls := [MonitorCall.waitForLBV2viaPool poolID "ACTIVE" timeout,
                           MonitorCall.Retry timeout (MonitorRequest.Create createOpts),
                           MonitorCall.waitForLBV2viaPool poolID "ACTIVE" timeout] }
        | none =>
          let r := resourceMonitorV2Read h { d with Id := monitor.ID } cfg
          some { r with
                 calls := [MonitorCall.waitForLBV2viaPool poolID "ACTIVE" timeout,
                           MonitorCall.Retry timeout (MonitorRequest.Create createOpts),
                           MonitorCall.waitForLBV2viaPool poolID "ACTIVE" timeout] }

/-- The update options of `resourceMonitorV2Update` (lines 201 to 229): they start
from the zero value and a field is filled only under the `d.HasChange` test of its
attribute. -/
def resourceMonitorV2UpdateOpts (d : MonitorData) : monitors.UpdateOpts :=
  let updateOpts := monitors.UpdateOpts.zero
  let updateOpts :=
    if d.HasChange "url_path" then { updateOpts with URLPath := d.url_path } else updateOpts
  let updateOpts :=
    if d.HasChange "expected_codes" then { updateOpts with ExpectedCodes := d.expected_codes }
    else updateOpts
  let updateOpts :=
    if d.HasChange "delay" then { updateOpts with Delay := d.delay } else updateOpts
  let updateOpts :=
    if d.HasChange "timeout" then { updateOpts with Timeout := d.timeout } else updateOpts
  let updateOpts :=
    if d.HasChange "max_retries" then { updateOpts with MaxRetries := d.max_retries }
    else updateOpts
  let updateOpts :=
    if d.HasChange "admin_state_up" then
      let asu := d.admin_state_up
      { updateOpts with AdminStateUp := some asu }
    else updateOpts
  let updateOpts :=
    if d.HasChange "name" then { updateOpts with Name := d.name } else updateOpts
  let updateOpts :=
    if d.HasChange "http_method" then { updateOpts with HTTPMethod := d.http_method }
    else updateOpts
  let updateOpts :=
    if d.HasChange "monitor_port" then { updateOpts with MonitorPort := d.monitor_port }
    else updateOpts
  updateOpts

/-- `resourceMonitorV2Update`: the options are built, the parent pool is awaited,
the update is retried, the pool is awaited again, then the monitor is read. -/
def resourceMonitorV2Update (h : MonitorHelpers) (fuel : Nat) (d : MonitorData) (cfg : LBConfig) :
    Option MonitorResult :=
  match cfg.NetworkingV2Client (cfg.GetRegion d.region) with
  | .error err =>
    some { err := some (fmtErrorf
             ("error creating OpenTelekomCloud networking client: " ++ err.Error)),
           d := d, calls := [] }
  | .ok networkingClient =>
    let updateOpts := resourceMonitorV2UpdateOpts d
    let timeout := d.Timeout.Update
    let poolID := d.pool_id
    match h.waitForLBV2viaPool 0 networkingClient poolID "ACTIVE" timeout with
    | some err =>
      some { err := some err, d := d,
             calls := [MonitorCall.waitForLBV2viaPool poolID "ACTIVE" timeout] }
    | none =>
      match Retry timeout (fun attempt =>
          match (networkingClient.atAttempt attempt).monitorsUpdate d.Id updateOpts with
          | .error err => .error (h.CheckForRetryableError err)
          | .ok _ => .ok ()) fuel with
      | none => none
      | some (.error err) =>
        some { err := some (fmtErrorf ("unable to update monitor " ++ d.Id ++ ": " ++ err.Error)),
               d := d,
               calls := [MonitorCall.waitForLBV2viaPool poolID "ACTIVE" timeout,
                         MonitorCall.Retry timeout (MonitorRequest.Update d.Id updateOpts)] }
      | some (.ok _) =>
        match h.waitForLBV2viaPool 1 networkingClient poolID "ACTIVE" timeout with
        | some err =>
          some { err := some err, d := d,
                 calls := [MonitorCall.waitForLBV2viaPool poolID "ACTIVE" timeout,
                           MonitorCall.Retry timeout (MonitorRequest.Update d.Id updateOpts),
                           MonitorCall.waitForLBV2viaPool poolID "ACTIVE" timeout] }
        | none =>
          let r := resourceMonitorV2Read h d cfg
          some { r with
                 calls := [MonitorCall.waitForLBV2viaPool poolID "ACTIVE" timeout,
                           MonitorCall.Retry timeout (MonitorRequest.Update d.Id updateOpts),
                           MonitorCall.waitForLBV2viaPool poolID "ACTIVE" timeout] }

/-- `resourceMonitorV2Delete`: the parent pool is awaited, the deletion is retried
and the pool is awaited again; the timeout of all three is
`d.Timeout(schema.TimeoutUpdate)`. -/
def resourceMonitorV2Delete (h : MonitorHelpers) (fuel : Nat) (d : MonitorData) (cfg : LBConfig) :
    Option MonitorResult :=
  match cfg.NetworkingV2Client (cfg.GetRegion d.region) with
  | .error err =>
    some { err := some (fmtErrorf
             ("error creating OpenTelekomCloud networking client: " ++ err.Error)),
           d := d, calls := [] }
  | .ok networkingClient =>
    let timeout := d.Timeout.Update
    let poolID := d.pool_id
    match h.waitForLBV2viaPool 0 networkingClient poolID "ACTIVE" timeout with
    | some err =>
      some { err := some err, d := d,
             calls := [MonitorCall.waitForLBV2viaPool poolID "ACTIVE" timeout] }
    | none =>
      match Retry timeout (fun attempt =>
          match (networkingClient.atAttempt attempt).monitorsDelete d.Id with
          | .error err => .error (h.CheckForRetryableError err)
          | .ok _ => .ok ()) fuel with
      | none => none
      | some (.error err) =>
        some { err := some (fmtErrorf ("unable to delete monitor " ++ d.Id ++ ": " ++ err.Error)),
               d := d,
               calls := [MonitorCall.waitForLBV2viaPool poolID "ACTIVE" timeout,
                         MonitorCall.Retry timeout (MonitorRequest.Delete d.Id)] }
      | some (.ok _) =>
        match h.waitForLBV2viaPool 1 networkingClient poolID "ACTIVE" timeout with
        | some err =>
          some { err := some err, d := d,
                 calls := [MonitorCall.waitForLBV2viaPool poolID "ACTIVE" timeout,
                           MonitorCall.Retry timeout (MonitorRequest.Delete d.Id),
                           MonitorCall.waitForLBV2viaPool poolID "ACTIVE" timeout] }
        | none =>
          some { err := none, d := d,
                 calls := [MonitorCall.waitForLBV2viaPool poolID "ACTIVE" timeout,
                           MonitorCall.Retry timeout (MonitorRequest.Delete d.Id),
                           MonitorCall.waitForLBV2viaPool poolID "ACTIVE" timeout] }

/-- The monitor `monitor-1` as the load balancer API returns it. -/
def sampleMonitor : monitors.Monitor :=
  { ID := "monitor-1", Name := "health", TenantID := "tenant-1", Type_ := "HTTP", Delay := 5,
    Timeout := 3, MaxRetries := 3, HTTPMethod := "GET", URLPath := "/", ExpectedCodes := "200",
    AdminStateUp := true, MonitorPort := 80 }

/-- A load balancer service that accepts every request. -/
def sampleLBClient : LBClient :=
  { monitorsCreate := fun _ => .ok sampleMonitor,
    monitorsUpdate := fun _ _ => .ok sampleMonitor,
    monitorsDelete := fun _ => .ok (),
    monitorsGet := fun _ => .ok sampleMonitor }

/-- A load balancer service that gives the same answers throughout an operation. -/
def sampleLBCloud : LBCloud :=
  { atAttempt := fun _ => sampleLBClient, atRead := sampleLBClient }

/-- A configuration whose networking client is built and talks to `sampleLBCloud`. -/
def sampleLBConfig : LBConfig :=
  { GetRegion := fun region => region, NetworkingV2Client := fun _ => .ok sampleLBCloud }

/-- Helpers of the monitor resource whose `n`-th wait for the pool returns the
given outcome, with server errors and conflicts classified as retryable. -/
def monitorHelpers (wait : Nat → Option GoError) : MonitorHelpers :=
  { waitForLBV2viaPool := fun call _ _ _ _ => wait call,
    CheckForRetryableError := fun err =>
      match err.asErrUnexpectedResponseCode with
      | some 409 => { Err := err, Retryable := true }
      | some 503 => { Err := err, Retryable := true }
      | _ => { Err := err, Retryable := false },
    CheckDeleted := fun d err msg =>
      if err.isErrDefault404 then (none, { d with Id := "" })
      else (some (fmtErrorf (msg ++ ": " ++ err.Error)), d) }

/-- A monitor resource of which the delay and the name changed, with a create
timeout of 600, an update timeout of 60 and a delete timeout of 1200 seconds. -/
def sampleMonitorData : MonitorData :=
  { Id := "monitor-1", region := "eu-de", pool_id := "pool-1", name := "health-2",
    tenant_id := "tenant-1", type := "HTTP", delay := 10, timeout := 3, max_retries := 3,
    url_path := "/", http_method := "GET", expected_codes := "200", admin_state_up := true,
    monitor_port := 80, changed := ["delay", "name"],
    Timeout := { Create := 600, Update := 60, Delete := 1200 } }

/-! ## The identity credential data source -/

namespace credentials

/-- One access key of a user as the identity API lists it (`credentials.Credential`). -/
structure Credential where
  UserID : String
  Description : String
  AccessKey : String
  Status : String
  CreateTime : String
  deriving DecidableEq, Repr

/-- The options of `credentials.List`. -/
structure ListOpts where
  UserID : String
  deriving DecidableEq, Repr

end credentials

/-- The identity service: the answer to the listing of credentials. -/
structure IdentityClient where
  credentialsList : credentials.ListOpts → Except GoError (List credentials.Credential)

/-- The configuration as the data source uses it: the identity v3.0 client, which
may fail to be built. -/
structure IdentityConfig where
  IdentityV30Client : Except GoError IdentityClient

/-- The resource data of the data source `opentelekomcloud_identity_credential_v3`
as the read function uses it: the attribute `user_id`, and what `d.Set` returns
for a key and a value (nil, or an error when the key is no address of the schema). -/
structure CredentialData where
  user_id : String
  Set : String → String → Option GoError

/-- The outcome of the read of the data source: the returned error and the calls
of `d.Set` it made, each with its key and value, in order. -/
structure CredentialResult where
  err : Option GoError
  writes : List (String × String)
  deriving DecidableEq, Repr

/-- The error `me.ErrorOrNil()` returns for the errors appended to `me`: nil when
there is none, else one error whose text the format function of the multierror
package builds from them. -/
def multierrorErrorOrNil (ErrorFormat : List GoError → String) (errors : List GoError) :
    Option GoError :=
  if errors.length = 0 then none else some (GoError.ErrOther (ErrorFormat errors))

/-- `dataSourceIdentityCredentialV3Read`: five `d.Set` per listed credential, under
the keys `credentials.<i>.` followed by `used_id`, `access`, `status`,
`create_time` and `description`; the errors of the `d.Set` that are not nil are
appended to the returned multierror. `ErrorFormat` is the format function of the
multierror package, whose code is not among the sources. -/
def dataSourceIdentityCredentialV3Read (ErrorFormat : List GoError → String) (d : CredentialData)
    (cfg : IdentityConfig) : CredentialResult :=
  match cfg.IdentityV30Client with
  | .error err =>
    { err := some (fmtErrorf ("error creating identity v3.0 client: " ++ err.Error)), writes := [] }
  | .ok client =>
    let userID := d.user_id
    match client.credentialsList { UserID := userID } with
    | .error err =>
      { err := some (fmtErrorf ("error retrieving AK/SK information: " ++ err.Error)),
        writes := [] }
    | .ok credentialList =>
      let writes := credentialList.enum.flatMap fun ic =>
        let credKey := "credentials." ++ toString ic.1 ++ "."
        [(credKey ++ "used_id", ic.2.UserID),
         (credKey ++ "access", ic.2.AccessKey),
         (credKey ++ "status", ic.2.Status),
         (credKey ++ "create_time", ic.2.CreateTime),
         (credKey ++ "description", ic.2.Description)]
      let me := writes.filterMap fun kv => d.Set kv.1 kv.2
      { err := multierrorErrorOrNil ErrorFormat me, writes := writes }

/-- One access key of the user `user-1`. -/
def sampleCredential : credentials.Credential :=
  { UserID := "user-1", Description := "ci", AccessKey := "AK1", Status := "active",
    CreateTime := "2021-01-01T00:00:00Z" }

/-- A configuration whose identity client is built and lists `sampleCredential`. -/
def sampleIdentityConfig : IdentityConfig :=
  { IdentityV30Client := .ok { credentialsList := fun _ => .ok [sampleCredential] } }

/-- The data of the data source for the user `user-1`, whose `d.Set` accepts the
attributes the schema declares for the first element of `credentials` and refuses
every other key. -/
def sampleCredentialData : CredentialData :=
  { user_id := "user-1",
    Set := fun key _ =>
      if key ∈ ["credentials.0.user_id", "credentials.0.description", "credentials.0.access",
                "credentials.0.create_time", "credentials.0.status"] then none
      else some (GoError.ErrOther ("Invalid address to set: " ++ key)) }

/-- A format function that joins the texts of the errors. -/
def sampleErrorFormat (errors : List GoError) : String :=
  String.intercalate "; " (errors.map GoError.Error)

/-! ## The destroy check of the floating IP association -/

namespace servers

/-- A server as the compute API returns it, with the field the check reads:
`Addresses`, a map from network name to a list of address maps. A map is held as
the list of its entries in the order one iteration over it visits them; the values
the check looks at are strings. -/
structure Server where
  ID : String
  Addresses : List (String × List (List (String × String)))
  deriving DecidableEq, Repr

end servers

/-- The compute service: the answer to the read of a server. -/
structure ComputeClient where
  serversGet : String → Except GoError servers.Server

/-- The configuration of the acceptance tests: the compute client for a region,
which may fail to be built. -/
structure TestConfig where
  ComputeV2Client : String → Except GoError ComputeClient

/-- One resource of the state under test (`terraform.ResourceState`): its type and
the ID of its primary instance. -/
structure ResourceState where
  Type_ : String
  PrimaryID : String
  deriving DecidableEq, Repr

/-- The test an address map passes in the destroy check:
`address["OS-EXT-IPS:type"]` is `floating` or `fixed`. -/
def addressIsFloatingOrFixed (address : List (String × String)) : Bool :=
  address.lookup "OS-EXT-IPS:type" == some "floating" ||
    address.lookup "OS-EXT-IPS:type" == some "fixed"

/-- The loop of `testAccCheckComputeV2FloatingIPAssociateDestroy` over the
resources of the state. `ParseComputeFloatingIPAssociateId`, whose code is not
among the sources, splits an ID into floating IP, instance ID and fixed IP. -/
def testAccCheckComputeV2FloatingIPAssociateDestroyLoop
    (ParseComputeFloatingIPAssociateId : String → Except GoError (String × String × String))
    (computeClient : ComputeClient) : List ResourceState → Option GoError
  | [] => none
  | rs :: rest =>
    if rs.Type_ ≠ "opentelekomcloud_compute_floatingip_associate_v2" then
      testAccCheckComputeV2FloatingIPAssociateDestroyLoop ParseComputeFloatingIPAssociateId
        computeClient rest
    else
      match ParseComputeFloatingIPAssociateId rs.PrimaryID with
      | .error err => some err
      | .ok (floatingIP, instanceId, _) =>
        match computeClient.serversGet instanceId with
        | .error err =>
          if err.isErrDefault404 then none else some err
        | .ok server =>
          if server.Addresses.any (fun networkAddresses =>
              networkAddresses.2.any addressIsFloatingOrFixed) then
            some (fmtErrorf ("Floating IP " ++ floatingIP ++ " is still attached to instance " ++
              instanceId))
          else
            testAccCheckComputeV2FloatingIPAssociateDestroyLoop ParseComputeFloatingIPAssociateId
              computeClient rest

/-- `testAccCheckComputeV2FloatingIPAssociateDestroy`: the check of the state `s`
(the resources of its root module) in the region `OS_REGION_NAME`. -/
def testAccCheckComputeV2FloatingIPAssociateDestroy
    (ParseComputeFloatingIPAssociateId : String → Except GoError (String × String × String))
    (OS_REGION_NAME : String) (config : TestConfig) (s : List ResourceState) : Option GoError :=
  match config.ComputeV2Client OS_REGION_NAME with
  | .error err =>
    some (fmtErrorf ("Error creating OpenTelekomCloud compute client: " ++ err.Error))
  | .ok computeClient =>
    testAccCheckComputeV2FloatingIPAssociateDestroyLoop ParseComputeFloatingIPAssociateId
      computeClient s

/-- A state with one association of the floating IP `80.1.2.3` to `server-1`. -/
def sampleAssociationState : List ResourceState :=
  [{ Type_ := "opentelekomcloud_compute_floatingip_associate_v2",
     PrimaryID := "80.1.2.3/server-1/" }]

/-- A parser that gives the floating IP `80.1.2.3` and the instance `server-1` for
every ID. -/
def sampleParseId (_ : String) : Except GoError (String × String × String) :=
  .ok ("80.1.2.3", "server-1", "")

/-- The server `server-1` with one address, of type `fixed`, and no floating IP. -/
def fixedOnlyServer : servers.Server :=
  { ID := "server-1",
    Addresses := [("net-1", [[("OS-EXT-IPS:type", "fixed"), ("addr", "10.0.0.5")]])] }

/-- A test configuration whose compute client is built and returns the given
answer to every read of a server. -/
def sampleTestConfig (get : Except GoError servers.Server) : TestConfig :=
  { ComputeV2Client := fun _ => .ok { serversGet := fun _ => get } }

/-! ## Lemmas on the wait loop -/

/-- The loop passes over `k` polls that return neither an error nor a target
status while the deadline has not elapsed. -/
theorem waitLoop_skip {ρ : Type} (conf : StateChangeConf ρ) (k : Nat) :
    ∀ (fuel elapsed poll : Nat),
      (∀ j, j < k → (conf.Refresh (poll + j)).err = none ∧
        (conf.Refresh (poll + j)).state ∉ conf.Target) →
      (∀ j, j < k → elapsed + j * conf.MinTimeout < conf.Timeout) →
      waitLoop conf (fuel + k) elapsed poll
        = waitLoop conf fuel (elapsed + k * conf.MinTimeout) (poll + k) := by
  induction k with
  | zero => intro fuel elapsed poll _ _; simp
  | succ k ih =>
    intro fuel elapsed poll hpoll htime
    have h0 := hpoll 0 (Nat.succ_pos k)
    have t0 := htime 0 (Nat.succ_pos k)
    simp only [Nat.add_zero, Nat.zero_mul] at h0 t0
    have hstep : waitLoop conf (fuel + k + 1) elapsed poll
        = waitLoop conf (fuel + k) (elapsed + conf.MinTimeout) (poll + 1) := by
      simp only [waitLoop, Nat.not_le.mpr t0, if_false, h0.1, h0.2]
    have hrec := ih fuel (elapsed + conf.MinTimeout) (poll + 1)
      (fun j hj => by
        have := hpoll (j + 1) (Nat.succ_lt_succ hj)
        rwa [show poll + (j + 1) = poll + 1 + j by omega] at this)
      (fun j hj => by
        have := htime (j + 1) (Nat.succ_lt_succ hj)
        rw [Nat.succ_mul] at this
        omega)
    rw [show fuel + (k + 1) = fuel + k + 1 by omega, hstep, hrec]
    congr 1
    · rw [Nat.succ_mul]; omega
    · omega

/-- A poll before the deadline that returns a target status without error ends
the wait with the polled resource. -/
theorem waitLoop_target {ρ : Type} (conf : StateChangeConf ρ) (fuel elapsed poll : Nat)
    (htime : elapsed < conf.Timeout) (herr : (conf.Refresh poll).err = none)
    (hst : (conf.Refresh poll).state ∈ conf.Target) :
    waitLoop conf (fuel + 1) elapsed poll = some (.ok (conf.Refresh poll).result) := by
  simp only [waitLoop, Nat.not_le.mpr htime, if_false, herr, hst, if_true]

/-- A poll before the deadline that returns an error ends the wait with that error. -/
theorem waitLoop_error {ρ : Type} (conf : StateChangeConf ρ) (fuel elapsed poll : Nat)
    (err : GoError) (htime : elapsed < conf.Timeout) (herr : (conf.Refresh poll).err = some err) :
    waitLoop conf (fuel + 1) elapsed poll = some (.error err) := by
  simp only [waitLoop, Nat.not_le.mpr htime, if_false, herr]

/-- A successful wait returns the resource of the first poll whose status is in
the target list, and no poll up to it returned an error. -/
theorem waitLoop_ok_first {ρ : Type} (conf : StateChangeConf ρ) (fuel : Nat) :
    ∀ (elapsed poll : Nat) (r : Option ρ),
      waitLoop conf fuel elapsed poll = some (.ok r) →
      ∃ k, (conf.Refresh (poll + k)).state ∈ conf.Target ∧ r = (conf.Refresh (poll + k)).result ∧
        (conf.Refresh (poll + k)).err = none ∧
        ∀ j, j < k → (conf.Refresh (poll + j)).state ∉ conf.Target := by
  induction fuel with
  | zero => intro elapsed poll r h; simp [waitLoop] at h
  | succ fuel ih =>
    intro elapsed poll r h
    rw [waitLoop] at h
    split at h
    · simp at h
    · split at h
      · simp at h
      · rename_i herr
        split at h
        · rename_i hst
          refine ⟨0, hst, ?_, herr, ?_⟩
          · simp only [Option.some.injEq, Except.ok.injEq] at h
            exact h.symm
          · intro j hj; omega
        · rename_i hst
          obtain ⟨k, h1, h2, h3, h4⟩ := ih _ _ r h
          refine ⟨k + 1, ?_, ?_, ?_, ?_⟩
          · rwa [show poll + (k + 1) = poll + 1 + k by omega]
          · rwa [show poll + (k + 1) = poll + 1 + k by omega]
          · rwa [show poll + (k + 1) = poll + 1 + k by omega]
          · intro j hj
            cases j with
            | zero => simpa using hst
            | succ j =>
              have := h4 j (by omega)
              rwa [show poll + (j + 1) = poll + 1 + j by omega]

/-- A wait whose polls never return an error nor a target status ends with a
`TimeoutError` as soon as the fuel covers the deadline. -/
theorem waitLoop_timeout {ρ : Type} (conf : StateChangeConf ρ)
    (hpoll : ∀ k, (conf.Refresh k).err = none ∧ (conf.Refresh k).state ∉ conf.Target)
    (fuel : Nat) :
    ∀ (elapsed poll : Nat), conf.Timeout ≤ elapsed + fuel * conf.MinTimeout →
      waitLoop conf (fuel + 1) elapsed poll = some (.error GoError.TimeoutError) := by
  induction fuel with
  | zero =>
    intro elapsed poll h
    simp only [Nat.zero_mul, Nat.add_zero] at h
    simp [waitLoop, h]
  | succ fuel ih =>
    intro elapsed poll h
    rw [waitLoop]
    split
    · rfl
    · rw [(hpoll poll).1]
      simp only [(hpoll poll).2, if_false]
      apply ih
      rw [Nat.succ_mul] at h
      omega

/-- More fuel does not change the outcome of a wait that has ended. -/
theorem waitLoop_fuel_mono {ρ : Type} (conf : StateChangeConf ρ) (fuel : Nat) :
    ∀ (extra elapsed poll : Nat) (out : Except GoError (Option ρ)),
      waitLoop conf fuel elapsed poll = some out →
      waitLoop conf (fuel + extra) elapsed poll = some out := by
  induction fuel with
  | zero => intro extra elapsed poll out h; simp [waitLoop] at h
  | succ fuel ih =>
    intro extra elapsed poll out h
    rw [show fuel + 1 + extra = (fuel + extra) + 1 by omega]
    rw [waitLoop] at h ⊢
    split
    · rename_i ht; simpa [ht] using h
    · rename_i ht
      simp only [ht, if_false] at h
      split
      · rename_i e herr; simpa [herr] using h
      · rename_i herr
        simp only [herr] at h
        split
        · rename_i hst; simpa [hst] using h
        · rename_i hst
          simp only [hst, if_false] at h
          exact ih _ _ _ _ h


/-! ## The refresh functions -/

/-- C1: for every port ID, the refresh function of `waitForNetworkPortDelete`
returns status `DELETED` with no error whenever the port GET fails with a 404, and
whenever the GET succeeds and the DELETE that follows fails with a 404. -/
theorem waitForNetworkPortDelete_404_is_deleted (networkingClient : NetworkingClient)
    (portId : String) :
    (∀ err, networkingClient.portsGet portId = .error err → err.isErrDefault404 = true →
      (waitForNetworkPortDelete networkingClient portId).state = "DELETED" ∧
      (waitForNetworkPortDelete networkingClient portId).err = none) ∧
    (∀ p err, networkingClient.portsGet portId = .ok p →
      networkingClient.portsDelete portId = .error err → err.isErrDefault404 = true →
      (waitForNetworkPortDelete networkingClient portId).state = "DELETED" ∧
      (waitForNetworkPortDelete networkingClient portId).err = none) := by
  constructor
  · intro err hget h404
    simp [waitForNetworkPortDelete, hget, h404]
  · intro p err hget hdel h404
    simp [waitForNetworkPortDelete, hget, hdel, h404]

/-- Witness of C1: a GET answered with a 404, and a DELETE answered with a 404
after a successful GET. -/
theorem waitForNetworkPortDelete_404_is_deleted_witness :
    ((waitForNetworkPortDelete
        (stubClient (.error (GoError.ErrDefault404 "Resource not found")) (.ok ()) (.ok sampleInterfaceInfo))
        "port-1").state = "DELETED" ∧
     (waitForNetworkPortDelete
        (stubClient (.error (GoError.ErrDefault404 "Resource not found")) (.ok ()) (.ok sampleInterfaceInfo))
        "port-1").err = none) ∧
    ((waitForNetworkPortDelete
        (stubClient (.ok samplePort) (.error (GoError.ErrDefault404 "Resource not found")) (.ok sampleInterfaceInfo))
        "port-1").state = "DELETED" ∧
     (waitForNetworkPortDelete
        (stubClient (.ok samplePort) (.error (GoError.ErrDefault404 "Resource not found")) (.ok sampleInterfaceInfo))
        "port-1").err = none) :=
  ⟨(waitForNetworkPortDelete_404_is_deleted _ "port-1").1 _ rfl rfl,
   (waitForNetworkPortDelete_404_is_deleted _ "port-1").2 _ _ rfl rfl rfl⟩

/-- C3: the refresh function of `waitForRouterInterfaceDelete` classifies the
failures of its two requests: a 404 from the port GET or from `RemoveInterface`
gives (`DELETED`, no error); an unexpected-response-code error with actual code 409
from `RemoveInterface` gives (`ACTIVE`, no error); every other error of either
request is returned as the refresh error; a successful `RemoveInterface` gives
(`ACTIVE`, no error). -/
theorem waitForRouterInterfaceDelete_classifies (networkingClient : NetworkingClient)
    (d : RouterInterfaceData) :
    (∀ err, networkingClient.portsGet d.Id = .error err → err.isErrDefault404 = true →
      waitForRouterInterfaceDelete networkingClient d
        = { result := none, state := "DELETED", err := none }) ∧
    (∀ err, networkingClient.portsGet d.Id = .error err → err.isErrDefault404 = false →
      (waitForRouterInterfaceDelete networkingClient d).err = some err) ∧
    (∀ r err, networkingClient.portsGet d.Id = .ok r →
      networkingClient.routersRemoveInterface d.router_id
        { SubnetID := d.subnet_id, PortID := d.port_id } = .error err →
      err.isErrDefault404 = true →
      waitForRouterInterfaceDelete networkingClient d
        = { result := some r, state := "DELETED", err := none }) ∧
    (∀ r msg, networkingClient.portsGet d.Id = .ok r →
      networkingClient.routersRemoveInterface d.router_id
        { SubnetID := d.subnet_id, PortID := d.port_id }
          = .error (GoError.ErrUnexpectedResponseCode 409 msg) →
      waitForRouterInterfaceDelete networkingClient d
        = { result := some r, state := "ACTIVE", err := none }) ∧
    (∀ r err, networkingClient.portsGet d.Id = .ok r →
      networkingClient.routersRemoveInterface d.router_id
        { SubnetID := d.subnet_id, PortID := d.port_id } = .error err →
      err.isErrDefault404 = false → err.asErrUnexpectedResponseCode ≠ some 409 →
      (waitForRouterInterfaceDelete networkingClient d).err = some err) ∧
    (∀ r info, networkingClient.portsGet d.Id = .ok r →
      networkingClient.routersRemoveInterface d.router_id
        { SubnetID := d.subnet_id, PortID := d.port_id } = .ok info →
      waitForRouterInterfaceDelete networkingClient d
        = { result := some r, state := "ACTIVE", err := none }) := by
  refine ⟨?_, ?_, ?_, ?_, ?_, ?_⟩
  · intro err hget h404
    simp [waitForRouterInterfaceDelete, hget, h404]
  · intro err hget h404
    simp [waitForRouterInterfaceDelete, hget, h404]
  · intro r err hget hrem h404
    simp [waitForRouterInterfaceDelete, hget, hrem, h404]
  · intro r msg hget hrem
    simp [waitForRouterInterfaceDelete, hget, hrem, GoError.isErrDefault404,
      GoError.asErrUnexpectedResponseCode]
  · intro r err hget hrem h404 h409
    simp only [waitForRouterInterfaceDelete, hget, hrem, h404, Bool.false_eq_true, if_false]
  · intro r info hget hrem
    simp [waitForRouterInterfaceDelete, hget, hrem]


/-- Witness of C3: one answer of the service for each of the six cases. -/
theorem waitForRouterInterfaceDelete_classifies_witness :
    waitForRouterInterfaceDelete
        (stubClient (.error (GoError.ErrDefault404 "Resource not found")) (.ok ()) (.ok sampleInterfaceInfo))
        sampleRouterInterface
      = { result := none, state := "DELETED", err := none } ∧
    (waitForRouterInterfaceDelete
        (stubClient (.error (GoError.ErrUnexpectedResponseCode 409 "Conflict")) (.ok ()) (.ok sampleInterfaceInfo))
        sampleRouterInterface).err = some (GoError.ErrUnexpectedResponseCode 409 "Conflict") ∧
    waitForRouterInterfaceDelete
        (stubClient (.ok samplePort) (.ok ()) (.error (GoError.ErrDefault404 "Resource not found")))
        sampleRouterInterface
      = { result := some samplePort, state := "DELETED", err := none } ∧
    waitForRouterInterfaceDelete
        (stubClient (.ok samplePort) (.ok ()) (.error (GoError.ErrUnexpectedResponseCode 409 "Conflict")))
        sampleRouterInterface
      = { result := some samplePort, state := "ACTIVE", err := none } ∧
    (waitForRouterInterfaceDelete
        (stubClient (.ok samplePort) (.ok ()) (.error (GoError.ErrUnexpectedResponseCode 500 "Server error")))
        sampleRouterInterface).err = some (GoError.ErrUnexpectedResponseCode 500 "Server error") ∧
    waitForRouterInterfaceDelete
        (stubClient (.ok samplePort) (.ok ()) (.ok sampleInterfaceInfo))
        sampleRouterInterface
      = { result := some samplePort, state := "ACTIVE", err := none } :=
  ⟨(waitForRouterInterfaceDelete_classifies _ sampleRouterInterface).1 _ rfl rfl,
   (waitForRouterInterfaceDelete_classifies _ sampleRouterInterface).2.1 _ rfl rfl,
   (waitForRouterInterfaceDelete_classifies _ sampleRouterInterface).2.2.1 _ _ rfl rfl rfl,
   (waitForRouterInterfaceDelete_classifies _ sampleRouterInterface).2.2.2.1 _ _ rfl rfl,
   (waitForRouterInterfaceDelete_classifies _ sampleRouterInterface).2.2.2.2.1 _ _ rfl rfl rfl
     (by decide),
   (waitForRouterInterfaceDelete_classifies _ sampleRouterInterface).2.2.2.2.2 _ _ rfl rfl⟩

/-- C6: the refresh function of `waitForNetworkPortActive` reports status `ACTIVE`
exactly when the fetched port's status is `DOWN` or `ACTIVE`; for every other port
status it reports that status unchanged together with the port; and when the port
GET fails it returns the GET error with a nil resource and an empty status. -/
theorem waitForNetworkPortActive_reports (networkingClient : NetworkingClient) (portId : String) :
    (∀ p, networkingClient.portsGet portId = .ok p →
      ((waitForNetworkPortActive networkingClient portId).state = "ACTIVE" ↔
        (p.Status = "DOWN" ∨ p.Status = "ACTIVE")) ∧
      (waitForNetworkPortActive networkingClient portId).result = some p ∧
      (waitForNetworkPortActive networkingClient portId).err = none) ∧
    (∀ p, networkingClient.portsGet portId = .ok p →
      ¬ (p.Status = "DOWN" ∨ p.Status = "ACTIVE") →
      waitForNetworkPortActive networkingClient portId
        = { result := some p, state := p.Status, err := none }) ∧
    (∀ err, networkingClient.portsGet portId = .error err →
      waitForNetworkPortActive networkingClient portId
        = { result := none, state := "", err := some err }) := by
  refine ⟨?_, ?_, ?_⟩
  · intro p hget
    by_cases hs : p.Status = "DOWN" ∨ p.Status = "ACTIVE"
    · simp [waitForNetworkPortActive, hget, hs]
    · have hne : ¬ p.Status = "ACTIVE" := fun h => hs (Or.inr h)
      have hnd : ¬ p.Status = "DOWN" := fun h => hs (Or.inl h)
      simp [waitForNetworkPortActive, hget, hne, hnd]
  · intro p hget hs
    simp [waitForNetworkPortActive, hget, hs]
  · intro err hget
    simp [waitForNetworkPortActive, hget]

/-- Witness of C6: a port in status `DOWN`, a port in status `BUILD`, and a GET
that fails. -/
theorem waitForNetworkPortActive_reports_witness :
    (((waitForNetworkPortActive
          (stubClient (.ok { samplePort with Status := "DOWN" }) (.ok ()) (.ok sampleInterfaceInfo))
          "port-1").state = "ACTIVE" ↔
        (({ samplePort with Status := "DOWN" } : ports.Port).Status = "DOWN" ∨
         ({ samplePort with Status := "DOWN" } : ports.Port).Status = "ACTIVE")) ∧
      (waitForNetworkPortActive
          (stubClient (.ok { samplePort with Status := "DOWN" }) (.ok ()) (.ok sampleInterfaceInfo))
          "port-1").result = some { samplePort with Status := "DOWN" } ∧
      (waitForNetworkPortActive
          (stubClient (.ok { samplePort with Status := "DOWN" }) (.ok ()) (.ok sampleInterfaceInfo))
          "port-1").err = none) ∧
    waitForNetworkPortActive
        (stubClient (.ok { samplePort with Status := "BUILD" }) (.ok ()) (.ok sampleInterfaceInfo))
        "port-1"
      = { result := some { samplePort with Status := "BUILD" }, state := "BUILD", err := none } ∧
    waitForNetworkPortActive
        (stubClient (.error (GoError.ErrOther "connection reset")) (.ok ()) (.ok sampleInterfaceInfo))
        "port-1"
      = { result := none, state := "", err := some (GoError.ErrOther "connection reset") } :=
  ⟨(waitForNetworkPortActive_reports _ "port-1").1 _ rfl,
   (waitForNetworkPortActive_reports _ "port-1").2.1 { samplePort with Status := "BUILD" } rfl
     (by decide),
   (waitForNetworkPortActive_reports _ "port-1").2.2 _ rfl⟩


/-! ## The waits of port deletion and of router interface creation and deletion -/

/-- A poll of `waitForNetworkPortDelete` that reports `DELETED` carries no error. -/
theorem waitForNetworkPortDelete_deleted_no_err (networkingClient : NetworkingClient)
    (portId : String)
    (h : (waitForNetworkPortDelete networkingClient portId).state = "DELETED") :
    (waitForNetworkPortDelete networkingClient portId).err = none := by
  unfold waitForNetworkPortDelete at h ⊢
  split
  · rename_i err hget
    simp only [hget] at h
    split
    · rfl
    · rename_i h404
      simp [h404] at h
  · rename_i p hget
    simp only [hget] at h
    split
    · rename_i err hdel
      simp only [hdel] at h
      split
      · rfl
      · rename_i h404
        simp [h404] at h
    · rfl

/-- A poll of `waitForRouterInterfaceActive` that reports `ACTIVE` carries no error. -/
theorem waitForRouterInterfaceActive_active_no_err (networkingClient : NetworkingClient)
    (rId : String)
    (h : (waitForRouterInterfaceActive networkingClient rId).state = "ACTIVE") :
    (waitForRouterInterfaceActive networkingClient rId).err = none := by
  unfold waitForRouterInterfaceActive at h ⊢
  split
  · rename_i err hget
    simp [hget] at h
  · rfl

/-- The wait reaches its `k`-th poll and returns its resource when that poll is
the first with a target status, no poll up to it failed and the deadline has not
elapsed. -/
theorem WaitForState_first_target {ρ : Type} (conf : StateChangeConf ρ) (k fuel : Nat)
    (hpoll : ∀ j, j < k → (conf.Refresh j).err = none ∧ (conf.Refresh j).state ∉ conf.Target)
    (herr : (conf.Refresh k).err = none)
    (hst : (conf.Refresh k).state ∈ conf.Target)
    (htime : k * conf.MinTimeout < conf.Timeout) (hfuel : k < fuel) :
    conf.WaitForState fuel = some (.ok (conf.Refresh k).result) := by
  obtain ⟨n, rfl⟩ : ∃ n, fuel = (n + 1) + k := ⟨fuel - k - 1, by omega⟩
  unfold StateChangeConf.WaitForState
  rw [waitLoop_skip conf k (n + 1) 0 0 (fun j hj => by simpa using hpoll j hj)
    (fun j hj => by
      have : j * conf.MinTimeout ≤ k * conf.MinTimeout := Nat.mul_le_mul_right _ (Nat.le_of_lt hj)
      omega)]
  simp only [Nat.zero_add]
  exact waitLoop_target conf n _ k htime herr hst

/-- The wait reaches its `k`-th poll and fails with its error when no earlier poll
failed or returned a target status and the deadline has not elapsed. -/
theorem WaitForState_poll_error {ρ : Type} (conf : StateChangeConf ρ) (k fuel : Nat) (err : GoError)
    (hpoll : ∀ j, j < k → (conf.Refresh j).err = none ∧ (conf.Refresh j).state ∉ conf.Target)
    (herr : (conf.Refresh k).err = some err)
    (htime : k * conf.MinTimeout < conf.Timeout) (hfuel : k < fuel) :
    conf.WaitForState fuel = some (.error err) := by
  obtain ⟨n, rfl⟩ : ∃ n, fuel = (n + 1) + k := ⟨fuel - k - 1, by omega⟩
  unfold StateChangeConf.WaitForState
  rw [waitLoop_skip conf k (n + 1) 0 0 (fun j hj => by simpa using hpoll j hj)
    (fun j hj => by
      have : j * conf.MinTimeout ≤ k * conf.MinTimeout := Nat.mul_le_mul_right _ (Nat.le_of_lt hj)
      omega)]
  simp only [Nat.zero_add]
  exact waitLoop_error conf n _ k err htime herr

/-- A wait with a positive poll interval whose polls never fail nor return a
target status ends with a `TimeoutError` for every fuel above the timeout. -/
theorem WaitForState_timeout {ρ : Type} (conf : StateChangeConf ρ) (fuel : Nat)
    (hpoll : ∀ k, (conf.Refresh k).err = none ∧ (conf.Refresh k).state ∉ conf.Target)
    (hmin : 0 < conf.MinTimeout) (hfuel : conf.Timeout < fuel) :
    conf.WaitForState fuel = some (.error GoError.TimeoutError) := by
  obtain ⟨n, rfl⟩ : ∃ n, fuel = n + 1 := ⟨fuel - 1, by omega⟩
  unfold StateChangeConf.WaitForState
  apply waitLoop_timeout conf hpoll n 0 0
  have : n * 1 ≤ n * conf.MinTimeout := Nat.mul_le_mul_left _ hmin
  omega


/-- C2: for every port ID, whenever the port GET or the port DELETE inside the
refresh function of `waitForNetworkPortDelete` fails with an error that is not a
404, the refresh function returns that same error; the delete wait that reaches
such a poll then fails with that error, and `resourceNetworkingPortV2Delete`
returns an error built from it. -/
theorem waitForNetworkPortDelete_returns_other_error (err : GoError)
    (hne : err.isErrDefault404 = false) :
    (∀ (networkingClient : NetworkingClient) (portId : String),
      (networkingClient.portsGet portId = .error err ∨
        ∃ p, networkingClient.portsGet portId = .ok p ∧
          networkingClient.portsDelete portId = .error err) →
      (waitForNetworkPortDelete networkingClient portId).err = some err) ∧
    (∀ (cfg : Config) (cloud : Cloud) (d : PortData) (k fuel : Nat),
      cfg.NetworkingV2Client (cfg.GetRegion d.region) = .ok cloud →
      (∀ j, j < k → (waitForNetworkPortDelete (cloud.atPoll j) d.Id).err = none ∧
        (waitForNetworkPortDelete (cloud.atPoll j) d.Id).state ≠ "DELETED") →
      ((cloud.atPoll k).portsGet d.Id = .error err ∨
        ∃ p, (cloud.atPoll k).portsGet d.Id = .ok p ∧
          (cloud.atPoll k).portsDelete d.Id = .error err) →
      k * 3 < d.Timeout.Delete → k < fuel →
      (portDeleteStateConf cloud d).WaitForState fuel = some (.error err) ∧
      resourceNetworkingPortV2Delete fuel d cfg
        = some { err := some (fmtErrorf
                   ("Error deleting OpenTelekomCloud Neutron Network: " ++ err.Error)),
                 d := d, sent := [] }) := by
  have hrefresh : ∀ (networkingClient : NetworkingClient) (portId : String),
      (networkingClient.portsGet portId = .error err ∨
        ∃ p, networkingClient.portsGet portId = .ok p ∧
          networkingClient.portsDelete portId = .error err) →
      (waitForNetworkPortDelete networkingClient portId).err = some err := by
    intro networkingClient portId h
    rcases h with hget | ⟨p, hget, hdel⟩
    · simp [waitForNetworkPortDelete, hget, hne]
    · simp [waitForNetworkPortDelete, hget, hdel, hne]
  refine ⟨hrefresh, ?_⟩
  intro cfg cloud d k fuel hclient hpoll hfail htime hfuel
  have hwait : (portDeleteStateConf cloud d).WaitForState fuel = some (.error err) := by
    apply WaitForState_poll_error (portDeleteStateConf cloud d) k fuel err
    · intro j hj
      have := hpoll j hj
      simpa [portDeleteStateConf] using this
    · exact hrefresh _ _ hfail
    · exact htime
    · exact hfuel
  refine ⟨hwait, ?_⟩
  simp only [resourceNetworkingPortV2Delete, hclient, hwait]

/-- Witness of C2: the port exists during two polls, then its GET fails with a
server error at the third. -/
theorem waitForNetworkPortDelete_returns_other_error_witness :
    (waitForNetworkPortDelete failingClient "port-1").err
        = some (GoError.ErrOther "Internal Server Error") ∧
    ((portDeleteStateConf (cloudThen activeClient failingClient 2) samplePortData).WaitForState 3
        = some (.error (GoError.ErrOther "Internal Server Error")) ∧
      resourceNetworkingPortV2Delete 3 samplePortData
          (sampleConfig (cloudThen activeClient failingClient 2))
        = some { err := some (fmtErrorf
                   ("Error deleting OpenTelekomCloud Neutron Network: " ++
                     (GoError.ErrOther "Internal Server Error").Error)),
                 d := samplePortData, sent := [] }) :=
  ⟨(waitForNetworkPortDelete_returns_other_error (GoError.ErrOther "Internal Server Error") rfl).1
      failingClient "port-1" (Or.inl rfl),
   (waitForNetworkPortDelete_returns_other_error (GoError.ErrOther "Internal Server Error") rfl).2
      (sampleConfig (cloudThen activeClient failingClient 2))
      (cloudThen activeClient failingClient 2) samplePortData 2 3 rfl
      (by decide) (Or.inl rfl) (by decide) (by decide)⟩


/-- C4: the poll-until-ready wait as configured in `resourceNetworkingPortV2Delete`
(pending `ACTIVE`, target `DELETED`) and in
`resourceNetworkingRouterInterfaceV2Create` (pending `BUILD`, `PENDING_CREATE`,
`PENDING_UPDATE`, target `ACTIVE`) returns the polled resource without error at
the first poll whose status is in the target list, when the wait gets to that poll
(no earlier poll failed and the deadline had not elapsed); and whenever it returns
a resource, that resource is the one of the first poll whose status was in the
target list, so it never succeeds when no polled status was in the target list. -/
theorem WaitForState_returns_at_first_target (cloud : Cloud) :
    (∀ (d : PortData) (k fuel : Nat),
      (∀ j, j < k → ((portDeleteStateConf cloud d).Refresh j).err = none ∧
        ((portDeleteStateConf cloud d).Refresh j).state ∉ (portDeleteStateConf cloud d).Target) →
      ((portDeleteStateConf cloud d).Refresh k).state ∈ (portDeleteStateConf cloud d).Target →
      k * (portDeleteStateConf cloud d).MinTimeout < (portDeleteStateConf cloud d).Timeout →
      k < fuel →
      (portDeleteStateConf cloud d).WaitForState fuel
        = some (.ok ((portDeleteStateConf cloud d).Refresh k).result)) ∧
    (∀ (d : PortData) (fuel : Nat) (r : Option ports.Port),
      (portDeleteStateConf cloud d).WaitForState fuel = some (.ok r) →
      ∃ k, ((portDeleteStateConf cloud d).Refresh k).state ∈ (portDeleteStateConf cloud d).Target ∧
        r = ((portDeleteStateConf cloud d).Refresh k).result ∧
        ∀ j, j < k →
          ((portDeleteStateConf cloud d).Refresh j).state ∉ (portDeleteStateConf cloud d).Target) ∧
    (∀ (d : RouterInterfaceData) (portId : String) (k fuel : Nat),
      (∀ j, j < k → ((routerInterfaceCreateStateConf cloud d portId).Refresh j).err = none ∧
        ((routerInterfaceCreateStateConf cloud d portId).Refresh j).state
          ∉ (routerInterfaceCreateStateConf cloud d portId).Target) →
      ((routerInterfaceCreateStateConf cloud d portId).Refresh k).state
        ∈ (routerInterfaceCreateStateConf cloud d portId).Target →
      k * (routerInterfaceCreateStateConf cloud d portId).MinTimeout
        < (routerInterfaceCreateStateConf cloud d portId).Timeout →
      k < fuel →
      (routerInterfaceCreateStateConf cloud d portId).WaitForState fuel
        = some (.ok ((routerInterfaceCreateStateConf cloud d portId).Refresh k).result)) ∧
    (∀ (d : RouterInterfaceData) (portId : String) (fuel : Nat) (r : Option ports.Port),
      (routerInterfaceCreateStateConf cloud d portId).WaitForState fuel = some (.ok r) →
      ∃ k, ((routerInterfaceCreateStateConf cloud d portId).Refresh k).state
          ∈ (routerInterfaceCreateStateConf cloud d portId).Target ∧
        r = ((routerInterfaceCreateStateConf cloud d portId).Refresh k).result ∧
        ∀ j, j < k → ((routerInterfaceCreateStateConf cloud d portId).Refresh j).state
          ∉ (routerInterfaceCreateStateConf cloud d portId).Target) := by
  refine ⟨?_, ?_, ?_, ?_⟩
  · intro d k fuel hpoll hst htime hfuel
    apply WaitForState_first_target _ k fuel hpoll _ hst htime hfuel
    apply waitForNetworkPortDelete_deleted_no_err
    simpa [portDeleteStateConf] using hst
  · intro d fuel r h
    obtain ⟨k, h1, h2, _, h4⟩ := waitLoop_ok_first _ fuel 0 0 r h
    refine ⟨k, by simpa using h1, by simpa using h2, ?_⟩
    intro j hj
    simpa using h4 j hj
  · intro d portId k fuel hpoll hst htime hfuel
    apply WaitForState_first_target _ k fuel hpoll _ hst htime hfuel
    apply waitForRouterInterfaceActive_active_no_err
    simpa [routerInterfaceCreateStateConf] using hst
  · intro d portId fuel r h
    obtain ⟨k, h1, h2, _, h4⟩ := waitLoop_ok_first _ fuel 0 0 r h
    refine ⟨k, by simpa using h1, by simpa using h2, ?_⟩
    intro j hj
    simpa using h4 j hj

/-- Witness of C4: a port that is gone at the third poll of its deletion, and a
router interface whose port is `ACTIVE` at the third poll after two polls in
`BUILD`. -/
theorem WaitForState_returns_at_first_target_witness :
    (portDeleteStateConf (cloudThen activeClient goneClient 2) samplePortData).WaitForState 3
        = some (.ok ((portDeleteStateConf (cloudThen activeClient goneClient 2) samplePortData).Refresh 2).result) ∧
    (∃ k, ((portDeleteStateConf (cloudThen activeClient goneClient 2) samplePortData).Refresh k).state
          ∈ (portDeleteStateConf (cloudThen activeClient goneClient 2) samplePortData).Target ∧
        (none : Option ports.Port)
          = ((portDeleteStateConf (cloudThen activeClient goneClient 2) samplePortData).Refresh k).result ∧
        ∀ j, j < k →
          ((portDeleteStateConf (cloudThen activeClient goneClient 2) samplePortData).Refresh j).state
            ∉ (portDeleteStateConf (cloudThen activeClient goneClient 2) samplePortData).Target) ∧
    (routerInterfaceCreateStateConf (cloudThen buildingClient activeClient 2) sampleRouterInterface
        "port-1").WaitForState 3
        = some (.ok ((routerInterfaceCreateStateConf (cloudThen buildingClient activeClient 2)
            sampleRouterInterface "port-1").Refresh 2).result) ∧
    (∃ k, ((routerInterfaceCreateStateConf (cloudThen buildingClient activeClient 2)
            sampleRouterInterface "port-1").Refresh k).state
          ∈ (routerInterfaceCreateStateConf (cloudThen buildingClient activeClient 2)
            sampleRouterInterface "port-1").Target ∧
        some samplePort
          = ((routerInterfaceCreateStateConf (cloudThen buildingClient activeClient 2)
            sampleRouterInterface "port-1").Refresh k).result ∧
        ∀ j, j < k → ((routerInterfaceCreateStateConf (cloudThen buildingClient activeClient 2)
            sampleRouterInterface "port-1").Refresh j).state
          ∉ (routerInterfaceCreateStateConf (cloudThen buildingClient activeClient 2)
            sampleRouterInterface "port-1").Target) :=
  ⟨(WaitForState_returns_at_first_target (cloudThen activeClient goneClient 2)).1
      samplePortData 2 3 (by decide) (by decide) (by decide) (by decide),
   (WaitForState_returns_at_first_target (cloudThen activeClient goneClient 2)).2.1
      samplePortData 3 none rfl,
   (WaitForState_returns_at_first_target (cloudThen buildingClient activeClient 2)).2.2.1
      sampleRouterInterface "port-1" 2 3 (by decide) (by decide) (by decide) (by decide),
   (WaitForState_returns_at_first_target (cloudThen buildingClient activeClient 2)).2.2.2
      sampleRouterInterface "port-1" 3 (some samplePort) rfl⟩

/-- C5: for every polling function that keeps returning a pending status (never a
target status and never an error), the poll-until-ready wait of
`resourceNetworkingPortV2Delete` and `resourceNetworkingRouterInterfaceV2Delete`
does not poll forever: for every fuel above the configured timeout it ends with a
`TimeoutError`, and the delete operation then returns an error. -/
theorem delete_wait_ends_with_TimeoutError :
    (∀ (Refresh : Nat → RefreshResult ports.Port) (Timeout fuel : Nat),
      (∀ k, (Refresh k).state ∈ ["ACTIVE"] ∧ (Refresh k).err = none) → Timeout < fuel →
      ({ Pending := ["ACTIVE"], Target := ["DELETED"], Refresh := Refresh, Timeout := Timeout,
         Delay := 5, MinTimeout := 3 } : StateChangeConf ports.Port).WaitForState fuel
        = some (.error GoError.TimeoutError)) ∧
    (∀ (cfg : Config) (cloud : Cloud) (d : PortData) (fuel : Nat),
      cfg.NetworkingV2Client (cfg.GetRegion d.region) = .ok cloud →
      (∀ k, ((portDeleteStateConf cloud d).Refresh k).state ∈ (portDeleteStateConf cloud d).Pending ∧
        ((portDeleteStateConf cloud d).Refresh k).err = none) →
      d.Timeout.Delete < fuel →
      (portDeleteStateConf cloud d).WaitForState fuel = some (.error GoError.TimeoutError) ∧
      resourceNetworkingPortV2Delete fuel d cfg
        = some { err := some (fmtErrorf ("Error deleting OpenTelekomCloud Neutron Network: " ++
                   GoError.TimeoutError.Error)),
                 d := d, sent := [] }) ∧
    (∀ (cfg : Config) (cloud : Cloud) (d : RouterInterfaceData) (fuel : Nat),
      cfg.NetworkingV2Client (cfg.GetRegion d.region) = .ok cloud →
      (∀ k, ((routerInterfaceDeleteStateConf cloud d).Refresh k).state
          ∈ (routerInterfaceDeleteStateConf cloud d).Pending ∧
        ((routerInterfaceDeleteStateConf cloud d).Refresh k).err = none) →
      d.Timeout.Delete < fuel →
      (routerInterfaceDeleteStateConf cloud d).WaitForState fuel
        = some (.error GoError.TimeoutError) ∧
      resourceNetworkingRouterInterfaceV2Delete fuel d cfg
        = some { err := some (fmtErrorf
                   ("Error deleting OpenTelekomCloud Neutron Router Interface: " ++
                     GoError.TimeoutError.Error)),
                 d := d, sent := [] }) := by
  have hpending : ∀ s : String, s ∈ ["ACTIVE"] → s ∉ ["DELETED"] := by
    intro s hs
    simp only [List.mem_singleton] at hs ⊢
    subst hs
    decide
  refine ⟨?_, ?_, ?_⟩
  · intro Refresh Timeout fuel hpoll hfuel
    apply WaitForState_timeout _ fuel _ (by show 0 < 3; decide) hfuel
    intro k
    exact ⟨(hpoll k).2, hpending _ (hpoll k).1⟩
  · intro cfg cloud d fuel hclient hpoll hfuel
    have hwait : (portDeleteStateConf cloud d).WaitForState fuel
        = some (.error GoError.TimeoutError) := by
      apply WaitForState_timeout _ fuel _ (by show 0 < 3; decide) hfuel
      intro k
      exact ⟨(hpoll k).2, hpending _ (hpoll k).1⟩
    refine ⟨hwait, ?_⟩
    simp only [resourceNetworkingPortV2Delete, hclient, hwait]
  · intro cfg cloud d fuel hclient hpoll hfuel
    have hwait : (routerInterfaceDeleteStateConf cloud d).WaitForState fuel
        = some (.error GoError.TimeoutError) := by
      apply WaitForState_timeout _ fuel _ (by show 0 < 3; decide) hfuel
      intro k
      exact ⟨(hpoll k).2, hpending _ (hpoll k).1⟩
    refine ⟨hwait, ?_⟩
    simp only [resourceNetworkingRouterInterfaceV2Delete, hclient, hwait]


/-- Witness of C5: a port and a router interface that stay in place, with the
default delete timeout of 600 seconds and fuel for 601 polls. -/
theorem delete_wait_ends_with_TimeoutError_witness :
    ({ Pending := ["ACTIVE"], Target := ["DELETED"],
       Refresh := fun _ => { result := some samplePort, state := "ACTIVE", err := none },
       Timeout := 600, Delay := 5, MinTimeout := 3 } : StateChangeConf ports.Port).WaitForState 601
        = some (.error GoError.TimeoutError) ∧
    ((portDeleteStateConf (steadyCloud activeClient) samplePortData).WaitForState 601
        = some (.error GoError.TimeoutError) ∧
      resourceNetworkingPortV2Delete 601 samplePortData (sampleConfig (steadyCloud activeClient))
        = some { err := some (fmtErrorf ("Error deleting OpenTelekomCloud Neutron Network: " ++
                   GoError.TimeoutError.Error)),
                 d := samplePortData, sent := [] }) ∧
    ((routerInterfaceDeleteStateConf (steadyCloud activeClient) sampleRouterInterface).WaitForState 601
        = some (.error GoError.TimeoutError) ∧
      resourceNetworkingRouterInterfaceV2Delete 601 sampleRouterInterface
          (sampleConfig (steadyCloud activeClient))
        = some { err := some (fmtErrorf
                   ("Error deleting OpenTelekomCloud Neutron Router Interface: " ++
                     GoError.TimeoutError.Error)),
                 d := sampleRouterInterface, sent := [] }) :=
  ⟨delete_wait_ends_with_TimeoutError.1 _ 600 601 (fun _ => ⟨by decide, rfl⟩) (by decide),
   delete_wait_ends_with_TimeoutError.2.1 (sampleConfig (steadyCloud activeClient))
     (steadyCloud activeClient) samplePortData 601 rfl (fun _ => ⟨List.Mem.head _, rfl⟩) (by decide),
   delete_wait_ends_with_TimeoutError.2.2 (sampleConfig (steadyCloud activeClient))
     (steadyCloud activeClient) sampleRouterInterface 601 rfl (fun _ => ⟨List.Mem.head _, rfl⟩)
     (by decide)⟩

/-! ## Creating and updating a port -/

/-- A text that starts with another character than `t` is not `t`. -/
theorem append_ne_of_head (a b t : String) (h : a.data.head? ≠ t.data.head?)
    (ha : a.data ≠ []) : a ++ b ≠ t := by
  intro heq
  apply h
  have hd : (a ++ b).data = t.data := congrArg String.data heq
  rw [String.data_append] at hd
  rw [← hd]
  cases hdata : a.data with
  | nil => exact absurd hdata ha
  | cons c cs => simp

/-- The security group IDs are passed on as configured. -/
theorem ResourcePortSecurityGroupsV2_eq (d : PortData) :
    ResourcePortSecurityGroupsV2 d = d.security_group_ids := by
  simp [ResourcePortSecurityGroupsV2]


/-- C7: given that the networking client was obtained,
`resourceNetworkingPortV2Create` fails with the error "Cannot have both
no_security_groups and security_group_ids set" if and only if `no_security_groups`
is true and `security_group_ids` is non-empty, and in that case it sends no
port-create request and leaves the resource data, the ID included, as it was. The
error of `common.CheckDeleted`, whose code is not among the sources, is taken to
be another one than that. -/
theorem resourceNetworkingPortV2Create_conflict (h : Helpers) (cfg : Config) (cloud : Cloud)
    (d : PortData) (fuel : Nat)
    (hclient : cfg.NetworkingV2Client (cfg.GetRegion d.region) = .ok cloud)
    (hcheck : ∀ d0 err, (h.CheckDeleted d0 err "port").1
      ≠ some (fmtErrorf "Cannot have both no_security_groups and security_group_ids set")) :
    ((d.no_security_groups = true ∧ d.security_group_ids ≠ []) →
      resourceNetworkingPortV2Create h fuel d cfg
        = some { err := some (fmtErrorf
                   "Cannot have both no_security_groups and security_group_ids set"),
                 d := d, sent := [] }) ∧
    (∀ r, resourceNetworkingPortV2Create h fuel d cfg = some r →
      (r.err = some (fmtErrorf "Cannot have both no_security_groups and security_group_ids set")
        ↔ (d.no_security_groups = true ∧ d.security_group_ids ≠ []))) := by
  have hguard : (d.no_security_groups = true ∧ d.security_group_ids ≠ []) →
      resourceNetworkingPortV2Create h fuel d cfg
        = some { err := some (fmtErrorf
                   "Cannot have both no_security_groups and security_group_ids set"),
                 d := d, sent := [] } := by
    intro hg
    have hlen : (ResourcePortSecurityGroupsV2 d).length > 0 := by
      rw [ResourcePortSecurityGroupsV2_eq]
      exact List.length_pos.mpr hg.2
    simp only [resourceNetworkingPortV2Create, hclient, hg.1, hlen, and_self, if_true]
  refine ⟨hguard, ?_⟩
  intro r hr
  by_cases hg : d.no_security_groups = true ∧ d.security_group_ids ≠ []
  · rw [hguard hg] at hr
    simp only [Option.some.injEq] at hr
    subst hr
    simp [hg]
  · simp only [hg, iff_false]
    have hlen : ¬ (d.no_security_groups = true ∧ (ResourcePortSecurityGroupsV2 d).length > 0) := by
      rw [ResourcePortSecurityGroupsV2_eq]
      intro hc
      exact hg ⟨hc.1, List.length_pos.mp hc.2⟩
    simp only [resourceNetworkingPortV2Create, hclient, hlen, if_false] at hr
    split at hr
    · rename_i err hcreate
      simp only [Option.some.injEq] at hr
      subst hr
      simp only [Option.some.injEq, fmtErrorf, GoError.errorString.injEq]
      exact append_ne_of_head _ _ _ (by decide) (by decide)
    · rename_i p hcreate
      split at hr
      · simp at hr
      · simp only [Option.some.injEq] at hr
        subst hr
        simp only [resourceNetworkingPortV2Read, hclient]
        split
        · rename_i err hget
          exact hcheck _ _
        · simp

/-- Witness of C7: a new port configured with `no_security_groups` and the group
`sg-1`. -/
theorem resourceNetworkingPortV2Create_conflict_witness :
    resourceNetworkingPortV2Create sampleHelpers 8 conflictingPortData
        (sampleConfig (steadyCloud activeClient))
      = some { err := some (fmtErrorf
                 "Cannot have both no_security_groups and security_group_ids set"),
               d := conflictingPortData, sent := [] } ∧
    (((resourceNetworkingPortV2Create sampleHelpers 8 samplePortData
          (sampleConfig (steadyCloud activeClient))).get rfl).err
        = some (fmtErrorf "Cannot have both no_security_groups and security_group_ids set")
      ↔ (samplePortData.no_security_groups = true ∧ samplePortData.security_group_ids ≠ [])) :=
  have hcheck : ∀ (d0 : PortData) (err : GoError), (sampleHelpers.CheckDeleted d0 err "port").1
      ≠ some (fmtErrorf "Cannot have both no_security_groups and security_group_ids set") := by
    intro d0 err
    cases h404 : err.isErrDefault404
    · simp only [sampleHelpers, h404, Bool.false_eq_true, if_false, ne_eq, Option.some.injEq,
        fmtErrorf, GoError.errorString.injEq]
      rw [String.append_assoc]
      exact append_ne_of_head _ _ _ (by decide) (by decide)
    · simp [sampleHelpers, h404]
  ⟨(resourceNetworkingPortV2Create_conflict sampleHelpers (sampleConfig (steadyCloud activeClient))
      (steadyCloud activeClient) conflictingPortData 8 rfl hcheck).1 ⟨rfl, by decide⟩,
   (resourceNetworkingPortV2Create_conflict sampleHelpers (sampleConfig (steadyCloud activeClient))
      (steadyCloud activeClient) samplePortData 8 rfl hcheck).2 _ (Option.some_get _).symm⟩

/-- With fuel to cover the deadline, the wait loop returns, whatever the polls
return. -/
theorem waitLoop_returns {ρ : Type} (conf : StateChangeConf ρ) (fuel : Nat) :
    ∀ (elapsed poll : Nat), conf.Timeout ≤ elapsed + fuel * conf.MinTimeout →
      ∃ out, waitLoop conf (fuel + 1) elapsed poll = some out := by
  induction fuel with
  | zero =>
    intro elapsed poll h
    simp only [Nat.zero_mul, Nat.add_zero] at h
    exact ⟨.error GoError.TimeoutError, by simp [waitLoop, h]⟩
  | succ fuel ih =>
    intro elapsed poll h
    rw [waitLoop]
    split
    · exact ⟨_, rfl⟩
    · split
      · exact ⟨_, rfl⟩
      · split
        · exact ⟨_, rfl⟩
        · apply ih
          rw [Nat.succ_mul] at h
          omega

/-- A wait with a positive poll interval returns for every fuel above its timeout. -/
theorem WaitForState_returns {ρ : Type} (conf : StateChangeConf ρ) (fuel : Nat)
    (hmin : 0 < conf.MinTimeout) (hfuel : conf.Timeout < fuel) :
    ∃ out, conf.WaitForState fuel = some out := by
  obtain ⟨n, rfl⟩ : ∃ n, fuel = n + 1 := ⟨fuel - 1, by omega⟩
  unfold StateChangeConf.WaitForState
  apply waitLoop_returns conf n 0 0
  have : n * 1 ≤ n * conf.MinTimeout := Nat.mul_le_mul_left _ hmin
  omega

/-- C8: `resourceNetworkingPortV2Create` that has the networking client and no
conflicting configuration returns for every fuel above the create timeout and has
then sent exactly one create request, in whose options the `SecurityGroups` field
is a pointer to the empty list when `no_security_groups` is true, a pointer to the
configured list when `security_group_ids` is non-empty, and nil when
`no_security_groups` is false and `security_group_ids` is empty; and the same
holds of every create request in any result the function returns. -/
theorem resourceNetworkingPortV2Create_SecurityGroups (h : Helpers) (cfg : Config) (d : PortData) :
    (∀ (cloud : Cloud) (fuel : Nat),
      cfg.NetworkingV2Client (cfg.GetRegion d.region) = .ok cloud →
      ¬ (d.no_security_groups = true ∧ d.security_group_ids ≠ []) →
      d.Timeout.Create < fuel →
      ∃ r opts, resourceNetworkingPortV2Create h fuel d cfg = some r ∧
        r.sent = [NetworkingRequest.portsCreate opts] ∧
        (d.no_security_groups = true → opts.CreateOpts.SecurityGroups = some []) ∧
        (d.security_group_ids ≠ [] →
          opts.CreateOpts.SecurityGroups = some d.security_group_ids) ∧
        (d.no_security_groups = false → d.security_group_ids = [] →
          opts.CreateOpts.SecurityGroups = none)) ∧
    (∀ (fuel : Nat) (r : OpResult PortData) (opts : PortCreateOpts),
      resourceNetworkingPortV2Create h fuel d cfg = some r →
      NetworkingRequest.portsCreate opts ∈ r.sent →
      (d.no_security_groups = true → opts.CreateOpts.SecurityGroups = some []) ∧
      (d.security_group_ids ≠ [] →
        opts.CreateOpts.SecurityGroups = some d.security_group_ids) ∧
      (d.no_security_groups = false → d.security_group_ids = [] →
        opts.CreateOpts.SecurityGroups = none)) := by
  have hall : ∀ (fuel : Nat) (r : OpResult PortData) (opts : PortCreateOpts),
      resourceNetworkingPortV2Create h fuel d cfg = some r →
      NetworkingRequest.portsCreate opts ∈ r.sent →
      (d.no_security_groups = true → opts.CreateOpts.SecurityGroups = some []) ∧
      (d.security_group_ids ≠ [] →
        opts.CreateOpts.SecurityGroups = some d.security_group_ids) ∧
      (d.no_security_groups = false → d.security_group_ids = [] →
        opts.CreateOpts.SecurityGroups = none) := by
    intro fuel r opts hr hsent
    unfold resourceNetworkingPortV2Create at hr
    split at hr
    · simp only [Option.some.injEq] at hr
      subst hr
      simp at hsent
    · rename_i cloud hclient
      simp only [ResourcePortSecurityGroupsV2_eq] at hr
      split at hr
      · simp only [Option.some.injEq] at hr
        subst hr
        simp at hsent
      · rename_i hguard
        have hopts : ∀ o : PortCreateOpts, NetworkingRequest.portsCreate opts
            ∈ [NetworkingRequest.portsCreate o] → opts = o := by
          intro o ho
          simpa using ho
        have key : opts.CreateOpts.SecurityGroups
            = if d.no_security_groups = true then some []
              else if d.security_group_ids.length > 0 then some d.security_group_ids
              else none := by
          split at hr
          · simp only [Option.some.injEq] at hr
            subst hr
            rw [hopts _ hsent]
            cases hn : d.no_security_groups <;> cases hs : d.security_group_ids <;> simp
          · split at hr
            · simp at hr
            · simp only [Option.some.injEq] at hr
              subst hr
              rw [hopts _ hsent]
              cases hn : d.no_security_groups <;> cases hs : d.security_group_ids <;> simp
        refine ⟨?_, ?_, ?_⟩
        · intro hn
          rw [key, if_pos hn]
        · intro hs
          have hn : ¬ d.no_security_groups = true := fun hn =>
            hguard ⟨hn, List.length_pos.mpr hs⟩
          rw [key, if_neg hn, if_pos (List.length_pos.mpr hs)]
        · intro hn hs
          rw [key]
          simp [hn, hs]
  refine ⟨?_, hall⟩
  intro cloud fuel hclient hok hfuel
  have hsends : ∃ r opts, resourceNetworkingPortV2Create h fuel d cfg = some r ∧
      r.sent = [NetworkingRequest.portsCreate opts] := by
    have hguard : ¬ (d.no_security_groups = true ∧ (ResourcePortSecurityGroupsV2 d).length > 0) := by
      rw [ResourcePortSecurityGroupsV2_eq]
      intro hc
      exact hok ⟨hc.1, List.length_pos.mp hc.2⟩
    simp only [resourceNetworkingPortV2Create, hclient, hguard, if_false]
    split
    · exact ⟨_, _, rfl, rfl⟩
    · rename_i p hcreate
      obtain ⟨out, hout⟩ := WaitForState_returns (portCreateStateConf cloud d p.ID) fuel
        (by show 0 < 3; decide) hfuel
      rw [hout]
      exact ⟨_, _, rfl, rfl⟩
  obtain ⟨r, opts, hr, hs⟩ := hsends
  exact ⟨r, opts, hr, hs, hall fuel r opts hr (by rw [hs]; exact List.Mem.head _)⟩

/-- Witness of C8: three new ports created on a cloud that accepts the request,
with the default create timeout of 600 seconds and fuel for 601 polls: with
`no_security_groups` the request carries a pointer to the empty list, with the
group `sg-1` a pointer to the list with `sg-1`, and with neither it carries nil;
the three requests sent are also given in full. -/
theorem resourceNetworkingPortV2Create_SecurityGroups_witness :
    (∃ r opts, resourceNetworkingPortV2Create sampleHelpers 601 noGroupsPortData
          (sampleConfig (steadyCloud activeClient)) = some r ∧
        r.sent = [NetworkingRequest.portsCreate opts] ∧
        opts.CreateOpts.SecurityGroups = some []) ∧
    (∃ r opts, resourceNetworkingPortV2Create sampleHelpers 601 samplePortData
          (sampleConfig (steadyCloud activeClient)) = some r ∧
        r.sent = [NetworkingRequest.portsCreate opts] ∧
        opts.CreateOpts.SecurityGroups = some ["sg-1"]) ∧
    (∃ r opts, resourceNetworkingPortV2Create sampleHelpers 601 plainPortData
          (sampleConfig (steadyCloud activeClient)) = some r ∧
        r.sent = [NetworkingRequest.portsCreate opts] ∧
        opts.CreateOpts.SecurityGroups = none) ∧
    ((resourceNetworkingPortV2Create sampleHelpers 601 noGroupsPortData
          (sampleConfig (steadyCloud activeClient))).map fun r => r.sent)
      = some [NetworkingRequest.portsCreate
          { sampleCreateOpts with
            CreateOpts := { sampleCreateOpts.CreateOpts with SecurityGroups := some [] } }] ∧
    ((resourceNetworkingPortV2Create sampleHelpers 601 samplePortData
          (sampleConfig (steadyCloud activeClient))).map fun r => r.sent)
      = some [NetworkingRequest.portsCreate sampleCreateOpts] ∧
    ((resourceNetworkingPortV2Create sampleHelpers 601 plainPortData
          (sampleConfig (steadyCloud activeClient))).map fun r => r.sent)
      = some [NetworkingRequest.portsCreate
          { sampleCreateOpts with
            CreateOpts := { sampleCreateOpts.CreateOpts with SecurityGroups := none } }] := by
  refine ⟨?_, ?_, ?_, by decide, by decide, by decide⟩
  · obtain ⟨r, opts, hr, hs, h1, _, _⟩ :=
      (resourceNetworkingPortV2Create_SecurityGroups sampleHelpers
        (sampleConfig (steadyCloud activeClient)) noGroupsPortData).1
        (steadyCloud activeClient) 601 rfl (by decide) (by decide)
    exact ⟨r, opts, hr, hs, h1 rfl⟩
  · obtain ⟨r, opts, hr, hs, _, h2, _⟩ :=
      (resourceNetworkingPortV2Create_SecurityGroups sampleHelpers
        (sampleConfig (steadyCloud activeClient)) samplePortData).1
        (steadyCloud activeClient) 601 rfl (by decide) (by decide)
    exact ⟨r, opts, hr, hs, h2 (by decide)⟩
  · obtain ⟨r, opts, hr, hs, _, _, h3⟩ :=
      (resourceNetworkingPortV2Create_SecurityGroups sampleHelpers
        (sampleConfig (steadyCloud activeClient)) plainPortData).1
        (steadyCloud activeClient) 601 rfl (by decide) (by decide)
    exact ⟨r, opts, hr, hs, h3 rfl rfl⟩

/-- C9 fails on the code: for a port of which only the name changed,
`resourceNetworkingPortV2Update` sends one update request whose options hold the new
name and leave both `SecurityGroups` and `AllowedAddressPairs` nil. -/
theorem resourceNetworkingPortV2Update_name_only_sends_nil :
    (resourceNetworkingPortV2Update sampleHelpers renamedPortData
        (sampleConfig (steadyCloud activeClient))).sent
      = [NetworkingRequest.portsUpdate "port-1"
          { Name := "web-2", AdminStateUp := none, FixedIPs := none, DeviceID := "",
            DeviceOwner := "", SecurityGroups := none, AllowedAddressPairs := none }] := by
  decide

/-! ## Creating an image -/

/-- C10 as stated fails on the code: with neither `instance_id` nor `image_url`
filled and an image client that cannot be built, `resourceImsImageV2Create` fails
with the error of the client, not with the error about the two attributes. -/
theorem resourceImsImageV2Create_client_error_first :
    sampleImsHelpers.hasFilledOpt sourcelessImageData "instance_id" = false ∧
    sampleImsHelpers.hasFilledOpt sourcelessImageData "image_url" = false ∧
    resourceImsImageV2Create sampleImsHelpers sourcelessImageData brokenImsConfig
      = { err := some (fmtErrorf
            "Error creating OpenTelekomCloud image client: no endpoint for region"),
          d := sourcelessImageData, sent := [] } ∧
    (resourceImsImageV2Create sampleImsHelpers sourcelessImageData brokenImsConfig).err
      ≠ some (fmtErrorf ("Error creating OpenTelekomCloud IMS: " ++
          "Either 'instance_id' or 'image_url' must be specified")) := by
  decide

/-- C10 as amended: given that the image client was obtained,
`resourceImsImageV2Create` fails with "Either 'instance_id' or 'image_url' must be
specified" whenever neither `instance_id` nor `image_url` is filled, and in that
case it sends neither a create-by-server nor a create-by-OBS request and leaves the
resource data, the ID included, as it was. -/
theorem resourceImsImageV2Create_needs_source (h : ImsHelpers) (d : ImageData) (cfg : ImsConfig)
    (ims_Client : ImsClient)
    (hclient : cfg.imageV2Client (h.GetRegion d cfg) = .ok ims_Client)
    (hinstance : h.hasFilledOpt d "instance_id" = false)
    (hurl : h.hasFilledOpt d "image_url" = false) :
    resourceImsImageV2Create h d cfg
      = { err := some (fmtErrorf ("Error creating OpenTelekomCloud IMS: " ++
            "Either 'instance_id' or 'image_url' must be specified")),
          d := d, sent := [] } := by
  simp [resourceImsImageV2Create, hclient, hinstance, hurl]

/-- Witness of the amended C10: an image resource with neither attribute, and an
image client that is built. -/
theorem resourceImsImageV2Create_needs_source_witness :
    resourceImsImageV2Create sampleImsHelpers sourcelessImageData sampleImsConfig
      = { err := some (fmtErrorf ("Error creating OpenTelekomCloud IMS: " ++
            "Either 'instance_id' or 'image_url' must be specified")),
          d := sourcelessImageData, sent := [] } :=
  resourceImsImageV2Create_needs_source sampleImsHelpers sourcelessImageData sampleImsConfig
    sampleImsClient rfl rfl rfl

/-- C11 as stated fails on the code: with an image client that cannot be built,
`resourceImsImageV2Create` returns the error of the client for a resource with
`image_url` filled and `min_disk` not filled, and sends no create-by-server request
for a resource with `instance_id` filled. -/
theorem resourceImsImageV2Create_min_disk_client_error_first :
    (sampleImsHelpers.hasFilledOpt obsImageData "instance_id" = false ∧
      sampleImsHelpers.hasFilledOpt obsImageData "image_url" = true ∧
      sampleImsHelpers.hasFilledOpt obsImageData "min_disk" = false ∧
      resourceImsImageV2Create sampleImsHelpers obsImageData brokenImsConfig
        = { err := some (fmtErrorf
              "Error creating OpenTelekomCloud image client: no endpoint for region"),
            d := obsImageData, sent := [] } ∧
      (resourceImsImageV2Create sampleImsHelpers obsImageData brokenImsConfig).err
        ≠ some (fmtErrorf "Error creating OpenTelekomCloud IMS: 'min_disk' must be specified")) ∧
    (sampleImsHelpers.hasFilledOpt serverImageData "instance_id" = true ∧
      (resourceImsImageV2Create sampleImsHelpers serverImageData brokenImsConfig).sent = []) := by
  decide

/-- C11 as amended: given that the image client was obtained, whenever
`instance_id` is not filled, `image_url` is filled and `min_disk` is not filled,
`resourceImsImageV2Create` fails with "'min_disk' must be specified" and sends no
create request; and whenever `instance_id` is filled it sends the create-by-server
request and no create-by-OBS request, whether `min_disk` is filled or not. -/
theorem resourceImsImageV2Create_min_disk (h : ImsHelpers) (d : ImageData) (cfg : ImsConfig)
    (ims_Client : ImsClient)
    (hclient : cfg.imageV2Client (h.GetRegion d cfg) = .ok ims_Client) :
    (h.hasFilledOpt d "instance_id" = false → h.hasFilledOpt d "image_url" = true →
      h.hasFilledOpt d "min_disk" = false →
      resourceImsImageV2Create h d cfg
        = { err := some (fmtErrorf
              "Error creating OpenTelekomCloud IMS: 'min_disk' must be specified"),
            d := d, sent := [] }) ∧
    (h.hasFilledOpt d "instance_id" = true →
      (resourceImsImageV2Create h d cfg).sent
        = [ImsRequest.CreateImageByServer
            { Name := d.name, Description := d.description, InstanceId := d.instance_id,
              MaxRam := d.max_ram, MinRam := d.min_ram,
              ImageTags := resourceContainerImageTags d }] ∧
      ∀ opts, ImsRequest.CreateImageByOBS opts ∉ (resourceImsImageV2Create h d cfg).sent) := by
  have hsent : ∀ (created : Except GoError cloudimages.JobResponse) (sent : List ImsRequest),
      (resourceImsImageV2CreateFinish h d cfg ims_Client created sent).sent = sent := by
    intro created sent
    unfold resourceImsImageV2CreateFinish
    split
    · rfl
    · split
      · rfl
      · split
        · rfl
        · split <;> rfl
  constructor
  · intro hinstance hurl hdisk
    simp [resourceImsImageV2Create, hclient, hinstance, hurl, hdisk]
  · intro hinstance
    have hs : (resourceImsImageV2Create h d cfg).sent
        = [ImsRequest.CreateImageByServer
            { Name := d.name, Description := d.description, InstanceId := d.instance_id,
              MaxRam := d.max_ram, MinRam := d.min_ram,
              ImageTags := resourceContainerImageTags d }] := by
      simp [resourceImsImageV2Create, hclient, hinstance, hsent]
    refine ⟨hs, ?_⟩
    intro opts hmem
    rw [hs] at hmem
    simp at hmem

/-- Witness of the amended C11: an image from an OBS file without `min_disk`, and
an image from a server without `min_disk`, with an image client that is built. -/
theorem resourceImsImageV2Create_min_disk_witness :
    resourceImsImageV2Create sampleImsHelpers obsImageData sampleImsConfig
      = { err := some (fmtErrorf
            "Error creating OpenTelekomCloud IMS: 'min_disk' must be specified"),
          d := obsImageData, sent := [] } ∧
    ((resourceImsImageV2Create sampleImsHelpers serverImageData sampleImsConfig).sent
        = [ImsRequest.CreateImageByServer
            { Name := serverImageData.name, Description := serverImageData.description,
              InstanceId := serverImageData.instance_id, MaxRam := serverImageData.max_ram,
              MinRam := serverImageData.min_ram,
              ImageTags := resourceContainerImageTags serverImageData }] ∧
      ∀ opts, ImsRequest.CreateImageByOBS opts
        ∉ (resourceImsImageV2Create sampleImsHelpers serverImageData sampleImsConfig).sent) :=
  ⟨(resourceImsImageV2Create_min_disk sampleImsHelpers obsImageData sampleImsConfig
      sampleImsClient rfl).1 rfl rfl rfl,
   (resourceImsImageV2Create_min_disk sampleImsHelpers serverImageData sampleImsConfig
      sampleImsClient rfl).2 rfl⟩

/-- The part after the create request adds no request to those already sent. -/
theorem resourceImsImageV2CreateFinish_sent (h : ImsHelpers) (d : ImageData) (cfg : ImsConfig)
    (ims_Client : ImsClient) (created : Except GoError cloudimages.JobResponse)
    (sent : List ImsRequest) :
    (resourceImsImageV2CreateFinish h d cfg ims_Client created sent).sent = sent := by
  unfold resourceImsImageV2CreateFinish
  split
  · rfl
  · split
    · rfl
    · split
      · rfl
      · split <;> rfl

/-- Reading an image leaves the resource ID as it is. -/
theorem resourceImsImageV2Read_Id (h : ImsHelpers) (d : ImageData) (cfg : ImsConfig) :
    (resourceImsImageV2Read h d cfg).d.Id = d.Id := by
  unfold resourceImsImageV2Read
  split
  · rfl
  · split <;> rfl

/-- When the image client is built, a create that sent the request `req` is the
part after the create request, run on the answer to `req`. -/
theorem resourceImsImageV2Create_eq_finish (h : ImsHelpers) (d : ImageData) (cfg : ImsConfig)
    (ims_Client : ImsClient) (req : ImsRequest)
    (hclient : cfg.imageV2Client (h.GetRegion d cfg) = .ok ims_Client)
    (hreq : req ∈ (resourceImsImageV2Create h d cfg).sent) :
    resourceImsImageV2Create h d cfg
      = resourceImsImageV2CreateFinish h d cfg ims_Client (ims_Client.answer req) [req] := by
  unfold resourceImsImageV2Create at hreq ⊢
  simp only [hclient] at hreq ⊢
  split
  · rename_i hg
    simp [hg] at hreq
  · rename_i hg
    simp only [hg, if_false] at hreq
    split
    · rename_i hi
      simp only [Bool.false_eq_true, if_false, hi, if_true, resourceImsImageV2CreateFinish_sent,
        List.mem_singleton] at hreq
      subst hreq
      rfl
    · rename_i hi
      split
      · rename_i hd
        simp [hi, hd] at hreq
      · rename_i hd
        simp only [Bool.false_eq_true, if_false, hi, hd, resourceImsImageV2CreateFinish_sent,
          List.mem_singleton] at hreq
        subst hreq
        rfl

/-- C12: `resourceImsImageV2Create` stores a resource ID only after the image job
has finished successfully. For the create request it sent: if the request, the job
wait or the lookup of the job entity fails, or the entity `image_id` is not a
string, it returns an error and leaves the resource data, the ID included, as it
was; otherwise the ID is exactly the job's `image_id` and the outcome is that of
`resourceImsImageV2Read`. A changed ID implies that all four steps succeeded. -/
theorem resourceImsImageV2Create_stores_id_after_job (h : ImsHelpers) (d : ImageData)
    (cfg : ImsConfig) :
    (∀ (ims_Client : ImsClient) (req : ImsRequest),
      cfg.imageV2Client (h.GetRegion d cfg) = .ok ims_Client →
      req ∈ (resourceImsImageV2Create h d cfg).sent →
      (∀ err, ims_Client.answer req = .error err →
        (resourceImsImageV2Create h d cfg).err
            = some (fmtErrorf ("Error creating OpenTelekomCloud IMS: " ++ err.Error)) ∧
          (resourceImsImageV2Create h d cfg).d = d) ∧
      (∀ v err, ims_Client.answer req = .ok v →
        ims_Client.WaitForJobSuccess d.Timeout.Create v.JobID = some err →
        (resourceImsImageV2Create h d cfg).err = some err ∧
          (resourceImsImageV2Create h d cfg).d = d) ∧
      (∀ v err, ims_Client.answer req = .ok v →
        ims_Client.WaitForJobSuccess d.Timeout.Create v.JobID = none →
        ims_Client.GetJobEntity v.JobID "image_id" = .error err →
        (resourceImsImageV2Create h d cfg).err = some err ∧
          (resourceImsImageV2Create h d cfg).d = d) ∧
      (∀ v, ims_Client.answer req = .ok v →
        ims_Client.WaitForJobSuccess d.Timeout.Create v.JobID = none →
        ims_Client.GetJobEntity v.JobID "image_id" = .ok cloudimages.JobEntity.other →
        (resourceImsImageV2Create h d cfg).err
            = some (fmtErrorf "Unexpected conversion error in resourceImsImageV2Create.") ∧
          (resourceImsImageV2Create h d cfg).d = d) ∧
      (∀ v id, ims_Client.answer req = .ok v →
        ims_Client.WaitForJobSuccess d.Timeout.Create v.JobID = none →
        ims_Client.GetJobEntity v.JobID "image_id" = .ok (cloudimages.JobEntity.string id) →
        resourceImsImageV2Create h d cfg
            = { resourceImsImageV2Read h { d with Id := id } cfg with sent := [req] } ∧
          (resourceImsImageV2Create h d cfg).d.Id = id)) ∧
    ((resourceImsImageV2Create h d cfg).d.Id ≠ d.Id →
      ∃ (ims_Client : ImsClient) (req : ImsRequest) (v : cloudimages.JobResponse) (id : String),
        cfg.imageV2Client (h.GetRegion d cfg) = .ok ims_Client ∧
        req ∈ (resourceImsImageV2Create h d cfg).sent ∧
        ims_Client.answer req = .ok v ∧
        ims_Client.WaitForJobSuccess d.Timeout.Create v.JobID = none ∧
        ims_Client.GetJobEntity v.JobID "image_id" = .ok (cloudimages.JobEntity.string id) ∧
        (resourceImsImageV2Create h d cfg).d.Id = id) := by
  have hcases : ∀ (ims_Client : ImsClient) (req : ImsRequest),
      cfg.imageV2Client (h.GetRegion d cfg) = .ok ims_Client →
      req ∈ (resourceImsImageV2Create h d cfg).sent →
      (∀ err, ims_Client.answer req = .error err →
        (resourceImsImageV2Create h d cfg).err
            = some (fmtErrorf ("Error creating OpenTelekomCloud IMS: " ++ err.Error)) ∧
          (resourceImsImageV2Create h d cfg).d = d) ∧
      (∀ v err, ims_Client.answer req = .ok v →
        ims_Client.WaitForJobSuccess d.Timeout.Create v.JobID = some err →
        (resourceImsImageV2Create h d cfg).err = some err ∧
          (resourceImsImageV2Create h d cfg).d = d) ∧
      (∀ v err, ims_Client.answer req = .ok v →
        ims_Client.WaitForJobSuccess d.Timeout.Create v.JobID = none →
        ims_Client.GetJobEntity v.JobID "image_id" = .error err →
        (resourceImsImageV2Create h d cfg).err = some err ∧
          (resourceImsImageV2Create h d cfg).d = d) ∧
      (∀ v, ims_Client.answer req = .ok v →
        ims_Client.WaitForJobSuccess d.Timeout.Create v.JobID = none →
        ims_Client.GetJobEntity v.JobID "image_id" = .ok cloudimages.JobEntity.other →
        (resourceImsImageV2Create h d cfg).err
            = some (fmtErrorf "Unexpected conversion error in resourceImsImageV2Create.") ∧
          (resourceImsImageV2Create h d cfg).d = d) ∧
      (∀ v id, ims_Client.answer req = .ok v →
        ims_Client.WaitForJobSuccess d.Timeout.Create v.JobID = none →
        ims_Client.GetJobEntity v.JobID "image_id" = .ok (cloudimages.JobEntity.string id) →
        resourceImsImageV2Create h d cfg
            = { resourceImsImageV2Read h { d with Id := id } cfg with sent := [req] } ∧
          (resourceImsImageV2Create h d cfg).d.Id = id) := by
    intro ims_Client req hclient hreq
    rw [resourceImsImageV2Create_eq_finish h d cfg ims_Client req hclient hreq]
    refine ⟨?_, ?_, ?_, ?_, ?_⟩
    · intro err ha
      simp [resourceImsImageV2CreateFinish, ha]
    · intro v err ha hw
      simp [resourceImsImageV2CreateFinish, ha, hw]
    · intro v err ha hw he
      simp [resourceImsImageV2CreateFinish, ha, hw, he]
    · intro v ha hw he
      simp [resourceImsImageV2CreateFinish, ha, hw, he]
    · intro v id ha hw he
      simp only [resourceImsImageV2CreateFinish, ha, hw, he, true_and]
      exact resourceImsImageV2Read_Id h { d with Id := id } cfg
  refine ⟨hcases, ?_⟩
  intro hid
  cases hclient : cfg.imageV2Client (h.GetRegion d cfg) with
  | error err =>
    exfalso
    apply hid
    simp [resourceImsImageV2Create, hclient]
  | ok ims_Client =>
    cases hsent : (resourceImsImageV2Create h d cfg).sent with
    | nil =>
      exfalso
      apply hid
      unfold resourceImsImageV2Create at hsent ⊢
      simp only [hclient] at hsent ⊢
      split
      · rfl
      · rename_i hg
        simp only [hg, if_false] at hsent
        split
        · rename_i hi
          simp [hi, resourceImsImageV2CreateFinish_sent] at hsent
        · rename_i hi
          simp only [hi, if_false] at hsent
          split
          · rfl
          · rename_i hd
            simp [hd, resourceImsImageV2CreateFinish_sent] at hsent
    | cons req rest =>
      have hreq : req ∈ (resourceImsImageV2Create h d cfg).sent := by
        rw [hsent]; exact List.Mem.head _
      obtain ⟨h1, h2, h3, h4, h5⟩ := hcases ims_Client req hclient hreq
      cases ha : ims_Client.answer req with
      | error err => exact absurd (congrArg ImageData.Id (h1 err ha).2) hid
      | ok v =>
        cases hw : ims_Client.WaitForJobSuccess d.Timeout.Create v.JobID with
        | some err => exact absurd (congrArg ImageData.Id (h2 v err ha hw).2) hid
        | none =>
          cases he : ims_Client.GetJobEntity v.JobID "image_id" with
          | error err => exact absurd (congrArg ImageData.Id (h3 v err ha hw he).2) hid
          | ok entity =>
            cases entity with
            | other => exact absurd (congrArg ImageData.Id (h4 v ha hw he).2) hid
            | string id =>
              exact ⟨ims_Client, req, v, id, rfl, List.Mem.head _, ha, hw, he, (h5 v id ha hw he).2⟩

/-- Witness of C12: an image created from the server `server-1`, whose job ends
with the entity `image-1`, on an image service that lists that image. -/
theorem resourceImsImageV2Create_stores_id_after_job_witness :
    resourceImsImageV2Create sampleImsHelpers serverImageData listingImsConfig
        = { resourceImsImageV2Read sampleImsHelpers { serverImageData with Id := "image-1" }
              listingImsConfig with sent := [serverImageRequest] } ∧
      (resourceImsImageV2Create sampleImsHelpers serverImageData listingImsConfig).d.Id
        = "image-1" :=
  ((resourceImsImageV2Create_stores_id_after_job sampleImsHelpers serverImageData
      listingImsConfig).1 listingImsClient serverImageRequest rfl (List.Mem.head _)).2.2.2.2
    { JobID := "job-1" } "image-1" rfl rfl rfl

/-- C18: `getCloudimage` succeeds if and only if the image listing succeeds, is
non-empty and its first image has the requested ID; every image it returns has the
requested ID; an empty listing fails with "Unable to find images", and a first
image with another ID fails with "Unexpected images ID". -/
theorem getCloudimage_succeeds_iff (client : ImsClient) (id : String) :
    ((∃ img, getCloudimage client id = .ok img) ↔
      ∃ allPages first rest, client.ListAllPages { ID := id, Limit := 1 } = .ok allPages ∧
        cloudimages.ExtractImages allPages = .ok (first :: rest) ∧ first.ID = id) ∧
    (∀ img, getCloudimage client id = .ok img → img.ID = id) ∧
    (∀ allPages, client.ListAllPages { ID := id, Limit := 1 } = .ok allPages →
      cloudimages.ExtractImages allPages = .ok [] →
      getCloudimage client id
        = .error (fmtErrorf ("Unable to find images " ++ id ++ ": Maybe not existed"))) ∧
    (∀ allPages first rest, client.ListAllPages { ID := id, Limit := 1 } = .ok allPages →
      cloudimages.ExtractImages allPages = .ok (first :: rest) → first.ID ≠ id →
      getCloudimage client id = .error (fmtErrorf "Unexpected images ID")) := by
  have hok : ∀ img, getCloudimage client id = .ok img →
      ∃ allPages rest, client.ListAllPages { ID := id, Limit := 1 } = .ok allPages ∧
        cloudimages.ExtractImages allPages = .ok (img :: rest) ∧ img.ID = id := by
    intro img h
    unfold getCloudimage at h
    simp only at h
    split at h
    · simp at h
    · rename_i allPages hlist
      split at h
      · simp at h
      · rename_i allImages hextract
        split at h
        · simp at h
        · rename_i first rest
          split at h
          · simp at h
          · rename_i hid
            simp only [Except.ok.injEq] at h
            subst h
            exact ⟨allPages, rest, hlist, hextract, by simpa using hid⟩
  refine ⟨⟨?_, ?_⟩, ?_, ?_, ?_⟩
  · rintro ⟨img, h⟩
    obtain ⟨allPages, rest, h1, h2, h3⟩ := hok img h
    exact ⟨allPages, img, rest, h1, h2, h3⟩
  · rintro ⟨allPages, first, rest, h1, h2, h3⟩
    exact ⟨first, by simp [getCloudimage, h1, h2, h3]⟩
  · intro img h
    obtain ⟨_, _, _, _, h3⟩ := hok img h
    exact h3
  · intro allPages h1 h2
    simp [getCloudimage, h1, h2]
  · intro allPages first rest h1 h2 h3
    simp [getCloudimage, h1, h2, h3]

/-- Witness of C18: the image `image-1` asked from a service that lists it, an
empty listing, and a listing whose first image is another one. -/
theorem getCloudimage_succeeds_iff_witness :
    (∃ img, getCloudimage listingImsClient "image-1" = .ok img) ∧
    sampleImage.ID = "image-1" ∧
    getCloudimage sampleImsClient "image-1"
      = .error (fmtErrorf ("Unable to find images " ++ "image-1" ++ ": Maybe not existed")) ∧
    getCloudimage listingImsClient "image-2" = .error (fmtErrorf "Unexpected images ID") :=
  ⟨(getCloudimage_succeeds_iff listingImsClient "image-1").1.2
      ⟨{ images := .ok [sampleImage] }, sampleImage, [], rfl, rfl, rfl⟩,
   (getCloudimage_succeeds_iff listingImsClient "image-1").2.1 sampleImage rfl,
   (getCloudimage_succeeds_iff sampleImsClient "image-1").2.2.1 { images := .ok [] } rfl rfl,
   (getCloudimage_succeeds_iff listingImsClient "image-2").2.2.2 { images := .ok [sampleImage] }
      sampleImage [] rfl rfl (by decide)⟩

/-- C17: when the API returns the port, `resourceNetworkingPortV2Read` stores in
`all_fixed_ips` exactly the IP addresses of the port's fixed IPs in the order
returned: the stored list has the length of the API's `FixedIPs` and its `i`-th
element is the `IPAddress` of the `i`-th fixed IP. -/
theorem resourceNetworkingPortV2Read_all_fixed_ips (h : Helpers) (d : PortData) (cfg : Config)
    (cloud : Cloud) (p : ports.Port)
    (hclient : cfg.NetworkingV2Client (cfg.GetRegion d.region) = .ok cloud)
    (hget : cloud.atRead.portsGet d.Id = .ok p) :
    (resourceNetworkingPortV2Read h d cfg).err = none ∧
    (resourceNetworkingPortV2Read h d cfg).d.all_fixed_ips.length = p.FixedIPs.length ∧
    ∀ i : Nat, (resourceNetworkingPortV2Read h d cfg).d.all_fixed_ips[i]?
      = (p.FixedIPs[i]?).map fun (ipObject : ports.IP) => ipObject.IPAddress := by
  simp [resourceNetworkingPortV2Read, hclient, hget]

/-- Witness of C17: the port `port-1` with the fixed IP `10.0.0.5`. -/
theorem resourceNetworkingPortV2Read_all_fixed_ips_witness :
    (resourceNetworkingPortV2Read sampleHelpers samplePortData
        (sampleConfig (steadyCloud activeClient))).err = none ∧
    (resourceNetworkingPortV2Read sampleHelpers samplePortData
        (sampleConfig (steadyCloud activeClient))).d.all_fixed_ips.length
      = samplePort.FixedIPs.length ∧
    ∀ i : Nat, (resourceNetworkingPortV2Read sampleHelpers samplePortData
        (sampleConfig (steadyCloud activeClient))).d.all_fixed_ips[i]?
      = (samplePort.FixedIPs[i]?).map fun (ipObject : ports.IP) => ipObject.IPAddress :=
  resourceNetworkingPortV2Read_all_fixed_ips sampleHelpers samplePortData
    (sampleConfig (steadyCloud activeClient)) (steadyCloud activeClient) samplePort rfl rfl

/-! ## Reading the access rules of a file share -/

/-- C16: when listing the access rights succeeds,
`resourceSFSShareAccessRulesV2Read` writes back an `access_rule` list with the
length and order of the API's list, whose `i`-th entry holds the `i`-th right's
`AccessLevel`, `AccessTo`, `AccessType`, `State` (as `access_rule_status`) and `ID`
(as `share_access_id`), and it sets `share_id` to the resource ID. -/
theorem resourceSFSShareAccessRulesV2Read_writes_rules (d : ShareAccessRulesData)
    (cfg : SfsConfig) (client : SfsClient) (rules : List shares.AccessRight)
    (hclient : cfg.SfsV2Client (cfg.GetRegion d) = .ok client)
    (hlist : client.ListAccessRights d.Id = .ok rules) :
    (resourceSFSShareAccessRulesV2Read d cfg).err = none ∧
    (resourceSFSShareAccessRulesV2Read d cfg).d.access_rule.length = rules.length ∧
    (∀ i : Nat, (resourceSFSShareAccessRulesV2Read d cfg).d.access_rule[i]?
      = (rules[i]?).map fun (v : shares.AccessRight) =>
          ({ access_level := v.AccessLevel, access_to := v.AccessTo, access_type := v.AccessType,
             access_rule_status := v.State, share_access_id := v.ID } : AccessRuleData)) ∧
    (resourceSFSShareAccessRulesV2Read d cfg).d.share_id = d.Id ∧
    (resourceSFSShareAccessRulesV2Read d cfg).d.Id = d.Id := by
  simp [resourceSFSShareAccessRulesV2Read, hclient, hlist]

/-- Witness of C16: the share `share-1` with two access rights. -/
theorem resourceSFSShareAccessRulesV2Read_writes_rules_witness :
    (resourceSFSShareAccessRulesV2Read sampleShareAccessRulesData sampleSfsConfig).err = none ∧
    (resourceSFSShareAccessRulesV2Read sampleShareAccessRulesData sampleSfsConfig).d.access_rule.length
      = sampleAccessRights.length ∧
    (∀ i : Nat,
      (resourceSFSShareAccessRulesV2Read sampleShareAccessRulesData sampleSfsConfig).d.access_rule[i]?
      = (sampleAccessRights[i]?).map fun (v : shares.AccessRight) =>
          ({ access_level := v.AccessLevel, access_to := v.AccessTo, access_type := v.AccessType,
             access_rule_status := v.State, share_access_id := v.ID } : AccessRuleData)) ∧
    (resourceSFSShareAccessRulesV2Read sampleShareAccessRulesData sampleSfsConfig).d.share_id
      = sampleShareAccessRulesData.Id ∧
    (resourceSFSShareAccessRulesV2Read sampleShareAccessRulesData sampleSfsConfig).d.Id
      = sampleShareAccessRulesData.Id :=
  resourceSFSShareAccessRulesV2Read_writes_rules sampleShareAccessRulesData sampleSfsConfig
    sampleSfsClient sampleAccessRights rfl rfl

/-! ## The load balancer monitor -/

/-- C13: in each of `resourceMonitorV2Create`, `resourceMonitorV2Update` and
`resourceMonitorV2Delete`, the monitor request is handed to `resource.Retry` only
after the first wait for the parent pool to become `ACTIVE` has returned nil: a
retried request among the calls means that this wait came first and succeeded;
and if that first wait fails, the operation returns the error of the wait, leaves
the resource data as it was and makes no other call. -/
theorem monitor_request_only_after_pool_wait (h : MonitorHelpers) (fuel : Nat) (d : MonitorData)
    (cfg : LBConfig) (networkingClient : LBCloud)
    (hclient : cfg.NetworkingV2Client (cfg.GetRegion d.region) = .ok networkingClient) :
    ((∀ err, h.waitForLBV2viaPool 0 networkingClient d.pool_id "ACTIVE" d.Timeout.Create = some err →
        resourceMonitorV2Create h fuel d cfg
          = some { err := some err, d := d,
                   calls := [MonitorCall.waitForLBV2viaPool d.pool_id "ACTIVE" d.Timeout.Create] }) ∧
      (∀ r timeout request, resourceMonitorV2Create h fuel d cfg = some r →
        MonitorCall.Retry timeout request ∈ r.calls →
        h.waitForLBV2viaPool 0 networkingClient d.pool_id "ACTIVE" d.Timeout.Create = none ∧
        ∃ rest, r.calls
          = MonitorCall.waitForLBV2viaPool d.pool_id "ACTIVE" d.Timeout.Create :: rest)) ∧
    ((∀ err, h.waitForLBV2viaPool 0 networkingClient d.pool_id "ACTIVE" d.Timeout.Update = some err →
        resourceMonitorV2Update h fuel d cfg
          = some { err := some err, d := d,
                   calls := [MonitorCall.waitForLBV2viaPool d.pool_id "ACTIVE" d.Timeout.Update] }) ∧
      (∀ r timeout request, resourceMonitorV2Update h fuel d cfg = some r →
        MonitorCall.Retry timeout request ∈ r.calls →
        h.waitForLBV2viaPool 0 networkingClient d.pool_id "ACTIVE" d.Timeout.Update = none ∧
        ∃ rest, r.calls
          = MonitorCall.waitForLBV2viaPool d.pool_id "ACTIVE" d.Timeout.Update :: rest)) ∧
    ((∀ err, h.waitForLBV2viaPool 0 networkingClient d.pool_id "ACTIVE" d.Timeout.Update = some err →
        resourceMonitorV2Delete h fuel d cfg
          = some { err := some err, d := d,
                   calls := [MonitorCall.waitForLBV2viaPool d.pool_id "ACTIVE" d.Timeout.Update] }) ∧
      (∀ r timeout request, resourceMonitorV2Delete h fuel d cfg = some r →
        MonitorCall.Retry timeout request ∈ r.calls →
        h.waitForLBV2viaPool 0 networkingClient d.pool_id "ACTIVE" d.Timeout.Update = none ∧
        ∃ rest, r.calls
          = MonitorCall.waitForLBV2viaPool d.pool_id "ACTIVE" d.Timeout.Update :: rest)) := by
  refine ⟨⟨?_, ?_⟩, ⟨?_, ?_⟩, ⟨?_, ?_⟩⟩
  · intro err hwait
    simp only [resourceMonitorV2Create, hclient, hwait]
  · intro r timeout request hr hmem
    cases hwait : h.waitForLBV2viaPool 0 networkingClient d.pool_id "ACTIVE" d.Timeout.Create with
    | some err =>
      simp only [resourceMonitorV2Create, hclient, hwait, Option.some.injEq] at hr
      subst hr
      simp at hmem
    | none =>
      refine ⟨rfl, ?_⟩
      simp only [resourceMonitorV2Create, hclient, hwait] at hr
      split at hr
      · simp at hr
      · simp only [Option.some.injEq] at hr
        subst hr
        exact ⟨_, rfl⟩
      · split at hr <;>
        · simp only [Option.some.injEq] at hr
          subst hr
          exact ⟨_, rfl⟩
  · intro err hwait
    simp only [resourceMonitorV2Update, hclient, hwait]
  · intro r timeout request hr hmem
    cases hwait : h.waitForLBV2viaPool 0 networkingClient d.pool_id "ACTIVE" d.Timeout.Update with
    | some err =>
      simp only [resourceMonitorV2Update, hclient, hwait, Option.some.injEq] at hr
      subst hr
      simp at hmem
    | none =>
      refine ⟨rfl, ?_⟩
      simp only [resourceMonitorV2Update, hclient, hwait] at hr
      split at hr
      · simp at hr
      · simp only [Option.some.injEq] at hr
        subst hr
        exact ⟨_, rfl⟩
      · split at hr <;>
        · simp only [Option.some.injEq] at hr
          subst hr
          exact ⟨_, rfl⟩
  · intro err hwait
    simp only [resourceMonitorV2Delete, hclient, hwait]
  · intro r timeout request hr hmem
    cases hwait : h.waitForLBV2viaPool 0 networkingClient d.pool_id "ACTIVE" d.Timeout.Update with
    | some err =>
      simp only [resourceMonitorV2Delete, hclient, hwait, Option.some.injEq] at hr
      subst hr
      simp at hmem
    | none =>
      refine ⟨rfl, ?_⟩
      simp only [resourceMonitorV2Delete, hclient, hwait] at hr
      split at hr
      · simp at hr
      · simp only [Option.some.injEq] at hr
        subst hr
        exact ⟨_, rfl⟩
      · split at hr <;>
        · simp only [Option.some.injEq] at hr
          subst hr
          exact ⟨_, rfl⟩

/-- Witness of C13: a pool whose first wait fails, and a pool that is `ACTIVE`
throughout, for each of the three operations. -/
theorem monitor_request_only_after_pool_wait_witness :
    (resourceMonitorV2Create (monitorHelpers fun _ => some (GoError.ErrOther "pool in ERROR")) 4
          sampleMonitorData sampleLBConfig
        = some { err := some (GoError.ErrOther "pool in ERROR"), d := sampleMonitorData,
                 calls := [MonitorCall.waitForLBV2viaPool sampleMonitorData.pool_id "ACTIVE"
                             sampleMonitorData.Timeout.Create] } ∧
      ((monitorHelpers fun _ => none).waitForLBV2viaPool 0 sampleLBCloud
            sampleMonitorData.pool_id "ACTIVE" sampleMonitorData.Timeout.Create = none ∧
        ∃ rest, ((resourceMonitorV2Create (monitorHelpers fun _ => none) 4 sampleMonitorData
            sampleLBConfig).get rfl).calls
          = MonitorCall.waitForLBV2viaPool sampleMonitorData.pool_id "ACTIVE"
              sampleMonitorData.Timeout.Create :: rest)) ∧
    (resourceMonitorV2Update (monitorHelpers fun _ => some (GoError.ErrOther "pool in ERROR")) 4
          sampleMonitorData sampleLBConfig
        = some { err := some (GoError.ErrOther "pool in ERROR"), d := sampleMonitorData,
                 calls := [MonitorCall.waitForLBV2viaPool sampleMonitorData.pool_id "ACTIVE"
                             sampleMonitorData.Timeout.Update] } ∧
      ((monitorHelpers fun _ => none).waitForLBV2viaPool 0 sampleLBCloud
            sampleMonitorData.pool_id "ACTIVE" sampleMonitorData.Timeout.Update = none ∧
        ∃ rest, ((resourceMonitorV2Update (monitorHelpers fun _ => none) 4 sampleMonitorData
            sampleLBConfig).get rfl).calls
          = MonitorCall.waitForLBV2viaPool sampleMonitorData.pool_id "ACTIVE"
              sampleMonitorData.Timeout.Update :: rest)) ∧
    (resourceMonitorV2Delete (monitorHelpers fun _ => some (GoError.ErrOther "pool in ERROR")) 4
          sampleMonitorData sampleLBConfig
        = some { err := some (GoError.ErrOther "pool in ERROR"), d := sampleMonitorData,
                 calls := [MonitorCall.waitForLBV2viaPool sampleMonitorData.pool_id "ACTIVE"
                             sampleMonitorData.Timeout.Update] } ∧
      ((monitorHelpers fun _ => none).waitForLBV2viaPool 0 sampleLBCloud
            sampleMonitorData.pool_id "ACTIVE" sampleMonitorData.Timeout.Update = none ∧
        ∃ rest, ((resourceMonitorV2Delete (monitorHelpers fun _ => none) 4 sampleMonitorData
            sampleLBConfig).get rfl).calls
          = MonitorCall.waitForLBV2viaPool sampleMonitorData.pool_id "ACTIVE"
              sampleMonitorData.Timeout.Update :: rest)) :=
  ⟨⟨(monitor_request_only_after_pool_wait _ 4 sampleMonitorData sampleLBConfig sampleLBCloud
        rfl).1.1 _ rfl,
    (monitor_request_only_after_pool_wait (monitorHelpers fun _ => none) 4 sampleMonitorData
        sampleLBConfig sampleLBCloud rfl).1.2 _ sampleMonitorData.Timeout.Create
        (MonitorRequest.Create
          { PoolID := "pool-1", TenantID := "tenant-1", Type_ := "HTTP", Delay := 10, Timeout := 3,
            MaxRetries := 3, URLPath := "/", HTTPMethod := "GET", ExpectedCodes := "200",
            Name := "health-2", AdminStateUp := some true, MonitorPort := 80 })
        (Option.some_get _).symm (List.Mem.tail _ (List.Mem.head _))⟩,
   ⟨(monitor_request_only_after_pool_wait _ 4 sampleMonitorData sampleLBConfig sampleLBCloud
        rfl).2.1.1 _ rfl,
    (monitor_request_only_after_pool_wait (monitorHelpers fun _ => none) 4 sampleMonitorData
        sampleLBConfig sampleLBCloud rfl).2.1.2 _ sampleMonitorData.Timeout.Update
        (MonitorRequest.Update "monitor-1" (resourceMonitorV2UpdateOpts sampleMonitorData))
        (Option.some_get _).symm (List.Mem.tail _ (List.Mem.head _))⟩,
   ⟨(monitor_request_only_after_pool_wait _ 4 sampleMonitorData sampleLBConfig sampleLBCloud
        rfl).2.2.1 _ rfl,
    (monitor_request_only_after_pool_wait (monitorHelpers fun _ => none) 4 sampleMonitorData
        sampleLBConfig sampleLBCloud rfl).2.2.2 _ sampleMonitorData.Timeout.Update
        (MonitorRequest.Delete "monitor-1")
        (Option.some_get _).symm (List.Mem.tail _ (List.Mem.head _))⟩⟩

/-- The update options in closed form: each field holds the configured value when
its attribute changed and the zero value otherwise. -/
theorem resourceMonitorV2UpdateOpts_eq (d : MonitorData) :
    resourceMonitorV2UpdateOpts d
      = { Delay := if d.HasChange "delay" then d.delay else 0,
          Timeout := if d.HasChange "timeout" then d.timeout else 0,
          MaxRetries := if d.HasChange "max_retries" then d.max_retries else 0,
          URLPath := if d.HasChange "url_path" then d.url_path else "",
          HTTPMethod := if d.HasChange "http_method" then d.http_method else "",
          ExpectedCodes := if d.HasChange "expected_codes" then d.expected_codes else "",
          Name := if d.HasChange "name" then d.name else "",
          AdminStateUp := if d.HasChange "admin_state_up" then some d.admin_state_up else none,
          MonitorPort := if d.HasChange "monitor_port" then d.monitor_port else 0 } := by
  unfold resourceMonitorV2UpdateOpts monitors.UpdateOpts.zero
  cases d.HasChange "url_path" <;> cases d.HasChange "expected_codes" <;>
  cases d.HasChange "delay" <;> cases d.HasChange "timeout" <;>
  cases d.HasChange "max_retries" <;> cases d.HasChange "admin_state_up" <;>
  cases d.HasChange "name" <;> cases d.HasChange "http_method" <;>
  cases d.HasChange "monitor_port" <;> rfl

/-- C19: in the update options built by `resourceMonitorV2Update`, every field
among `URLPath`, `ExpectedCodes`, `Delay`, `Timeout`, `MaxRetries`, `AdminStateUp`,
`Name`, `HTTPMethod` and `MonitorPort` whose attribute has not changed keeps its
zero value (empty string, 0 or nil), and every field whose attribute has changed
carries the configured value of the attribute; these are the options of the update
request the operation retries. -/
theorem resourceMonitorV2Update_options (d : MonitorData) :
    (resourceMonitorV2UpdateOpts d).URLPath
        = (if d.HasChange "url_path" then d.url_path else "") ∧
    (resourceMonitorV2UpdateOpts d).ExpectedCodes
        = (if d.HasChange "expected_codes" then d.expected_codes else "") ∧
    (resourceMonitorV2UpdateOpts d).Delay = (if d.HasChange "delay" then d.delay else 0) ∧
    (resourceMonitorV2UpdateOpts d).Timeout = (if d.HasChange "timeout" then d.timeout else 0) ∧
    (resourceMonitorV2UpdateOpts d).MaxRetries
        = (if d.HasChange "max_retries" then d.max_retries else 0) ∧
    (resourceMonitorV2UpdateOpts d).AdminStateUp
        = (if d.HasChange "admin_state_up" then some d.admin_state_up else none) ∧
    (resourceMonitorV2UpdateOpts d).Name = (if d.HasChange "name" then d.name else "") ∧
    (resourceMonitorV2UpdateOpts d).HTTPMethod
        = (if d.HasChange "http_method" then d.http_method else "") ∧
    (resourceMonitorV2UpdateOpts d).MonitorPort
        = (if d.HasChange "monitor_port" then d.monitor_port else 0) ∧
    (∀ (h : MonitorHelpers) (fuel : Nat) (cfg : LBConfig) (r : MonitorResult) (timeout : Nat)
        (id : String) (opts : monitors.UpdateOpts),
      resourceMonitorV2Update h fuel d cfg = some r →
      MonitorCall.Retry timeout (MonitorRequest.Update id opts) ∈ r.calls →
      opts = resourceMonitorV2UpdateOpts d) := by
  refine ⟨?_, ?_, ?_, ?_, ?_, ?_, ?_, ?_, ?_, ?_⟩
  · rw [resourceMonitorV2UpdateOpts_eq]
  · rw [resourceMonitorV2UpdateOpts_eq]
  · rw [resourceMonitorV2UpdateOpts_eq]
  · rw [resourceMonitorV2UpdateOpts_eq]
  · rw [resourceMonitorV2UpdateOpts_eq]
  · rw [resourceMonitorV2UpdateOpts_eq]
  · rw [resourceMonitorV2UpdateOpts_eq]
  · rw [resourceMonitorV2UpdateOpts_eq]
  · rw [resourceMonitorV2UpdateOpts_eq]
  · intro h fuel cfg r timeout id opts hr hmem
    unfold resourceMonitorV2Update at hr
    split at hr
    · simp only [Option.some.injEq] at hr
      subst hr
      simp at hmem
    · simp only at hr
      split at hr
      · simp only [Option.some.injEq] at hr
        subst hr
        simp at hmem
      · split at hr
        · simp at hr
        · simp only [Option.some.injEq] at hr
          subst hr
          simp at hmem
          exact hmem.2.2
        · split at hr <;>
          · simp only [Option.some.injEq] at hr
            subst hr
            simp at hmem
            exact hmem.2.2

/-- Witness of C19: a monitor of which the delay and the name changed; the
retried update request carries the new delay and name and zero values elsewhere. -/
theorem resourceMonitorV2Update_options_witness :
    ({ Delay := 10, Timeout := 0, MaxRetries := 0, URLPath := "", HTTPMethod := "",
       ExpectedCodes := "", Name := "health-2", AdminStateUp := none, MonitorPort := 0 }
        : monitors.UpdateOpts)
      = resourceMonitorV2UpdateOpts sampleMonitorData :=
  (resourceMonitorV2Update_options sampleMonitorData).2.2.2.2.2.2.2.2.2
    (monitorHelpers fun _ => none) 4 sampleLBConfig
    ((resourceMonitorV2Update (monitorHelpers fun _ => none) 4 sampleMonitorData
        sampleLBConfig).get rfl)
    sampleMonitorData.Timeout.Update "monitor-1" _
    (Option.some_get _).symm (List.Mem.tail _ (List.Mem.head _))

/-- C14 fails on the code: for a monitor with an update timeout of 60 seconds and
a delete timeout of 1200 seconds, `resourceMonitorV2Delete` passes 60, the update
timeout, to both waits for the pool and to the retried delete request. -/
theorem resourceMonitorV2Delete_uses_update_timeout :
    sampleMonitorData.Timeout.Delete = 1200 ∧
    resourceMonitorV2Delete (monitorHelpers fun _ => none) 4 sampleMonitorData sampleLBConfig
      = some { err := none, d := sampleMonitorData,
               calls := [MonitorCall.waitForLBV2viaPool "pool-1" "ACTIVE" 60,
                         MonitorCall.Retry 60 (MonitorRequest.Delete "monitor-1"),
                         MonitorCall.waitForLBV2viaPool "pool-1" "ACTIVE" 60] } := by
  decide

/-! ## The identity credential data source -/

/-- C15 fails on the code: for one listed credential,
`dataSourceIdentityCredentialV3Read` calls `d.Set` with the user ID under the key
`credentials.0.used_id`; no call has the key `credentials.0.user_id`, and with a
`d.Set` that accepts only the declared attributes the read returns an error. -/
theorem dataSourceIdentityCredentialV3Read_writes_used_id :
    (dataSourceIdentityCredentialV3Read sampleErrorFormat sampleCredentialData
        sampleIdentityConfig).writes
      = [("credentials.0.used_id", "user-1"), ("credentials.0.access", "AK1"),
         ("credentials.0.status", "active"),
         ("credentials.0.create_time", "2021-01-01T00:00:00Z"),
         ("credentials.0.description", "ci")] ∧
    "credentials.0.user_id" ∉ ((dataSourceIdentityCredentialV3Read sampleErrorFormat
        sampleCredentialData sampleIdentityConfig).writes.map fun kv => kv.1) ∧
    (dataSourceIdentityCredentialV3Read sampleErrorFormat sampleCredentialData
        sampleIdentityConfig).err
      = some (GoError.ErrOther "Invalid address to set: credentials.0.used_id") := by
  decide

/-! ## The destroy check of the floating IP association -/

/-- C20 fails on the code: for an association whose instance still exists with a
single address of type `fixed` and no floating IP,
`testAccCheckComputeV2FloatingIPAssociateDestroy` reports that the floating IP is
still attached; when the read of the instance fails with a 404 the check passes. -/
theorem testAccCheckComputeV2FloatingIPAssociateDestroy_reports_fixed :
    (fixedOnlyServer.Addresses.any fun networkAddresses =>
        networkAddresses.2.any fun address =>
          address.lookup "OS-EXT-IPS:type" == some "floating") = false ∧
    testAccCheckComputeV2FloatingIPAssociateDestroy sampleParseId "eu-de"
        (sampleTestConfig (.ok fixedOnlyServer)) sampleAssociationState
      = some (fmtErrorf "Floating IP 80.1.2.3 is still attached to instance server-1") ∧
    testAccCheckComputeV2FloatingIPAssociateDestroy sampleParseId "eu-de"
        (sampleTestConfig (.error (GoError.ErrDefault404 "Resource not found")))
        sampleAssociationState
      = none := by
  decide

end Opentelekomcloud
